import Mathlib

/-!
Verification of the scope3data/cf_worker Cloudflare worker against its
natural-language specification.

The development shallowly embeds the worker's pure logic in Lean:

* `src/html-cache.js` — the validator-based document cache
  (`generateHtmlCacheKey`, `getCachedHtml`, `fetchHtmlWithConditional`,
  `getHtmlWithCache`);
* the segment-classification clients and cache guards of the two
  ES-module worker variants (`part_005` and `part_007`:
  `callSegmentApi`, the `handleRequest` cache-write conditions,
  `getCacheKey`) and of `src/index.js`
  (`getScope3SegmentsWithTimeout`);
* the HTML injection / URL-rewrite pipeline of `src/index.js`
  (`injectSegmentsIntoPage`) and of `part_005`
  (`injectIntoHead`, `insertScope3Segments`);
* the routing-level early exits (`handleProxyRequest` non-HTML
  pass-through, `handleRequest` bot bypass).

Network and KV I/O is made explicit: origin and classification outcomes
are inductive data, KV stores are association lists, and cache writes are
returned as explicit operation lists so that "no write happens" is a
provable statement.
-/

/- ===================== generic string utilities ===================== -/

/-- Does `p` occur as a prefix of `l`? (List-level `startsWith`.) -/
def listStartsWith : List Char → List Char → Bool
  | [], _ => true
  | _ :: _, [] => false
  | p :: ps, c :: cs => p == c && listStartsWith ps cs

/-- Split `l` around the first occurrence of `pat`, returning the parts
before and after it.  `none` when `pat` does not occur.  This models the
first-occurrence semantics of JavaScript `String.prototype.indexOf` /
`includes` / one-argument `replace`. -/
def splitFirst (pat : List Char) : List Char → Option (List Char × List Char)
  | [] => if pat.isEmpty then some ([], []) else none
  | c :: cs =>
    if listStartsWith pat (c :: cs) then some ([], (c :: cs).drop pat.length)
    else
      match splitFirst pat cs with
      | some (a, b) => some (c :: a, b)
      | none => none

/-- JavaScript `s.includes(pat)`. -/
def strIncludes (s pat : String) : Bool := (splitFirst pat.data s.data).isSome

/-- JavaScript `s.replace(pat, repl)` with a plain-string pattern:
replaces only the FIRST occurrence (the worker's replacement strings
contain no `$` escapes, so the replacement is inserted verbatim). -/
def replaceFirst (s pat repl : String) : String :=
  match splitFirst pat.data s.data with
  | some (a, b) => ⟨a ++ repl.data ++ b⟩
  | none => s

/-- JavaScript `s.toLowerCase()` (character-wise, which agrees with it on
the ASCII strings the worker lowercases). -/
def strToLower (s : String) : String := ⟨s.data.map Char.toLower⟩

/-- Does `l` end with `suffix`? -/
def listEndsWith (l suffix : List Char) : Bool :=
  l.drop (l.length - suffix.length) == suffix

/- ===================== src/html-cache.js ===================== -/

/-- Components of a parsed absolute URL (`new URL(url)`): `protocol`
includes the trailing colon (e.g. `"https:"`), `host` may carry a port,
`hostname` never does, `search` is the raw query string. -/
structure UrlParts where
  protocol : String
  host : String
  hostname : String
  pathname : String
  search : String
deriving DecidableEq

/-- `url.toString()` for the parts above. -/
def urlToString (u : UrlParts) : String :=
  u.protocol ++ "//" ++ u.host ++ u.pathname ++ u.search

/-- `generateHtmlCacheKey` (src/html-cache.js lines 16-22):
`HTML_CACHE_PREFIX + urlObj.hostname + urlObj.pathname`.  The protocol,
query parameters and fragment are all dropped. -/
def generateHtmlCacheKey (u : UrlParts) : String :=
  "html:" ++ u.hostname ++ u.pathname

/-- Modelled from the spec (section 3, **CanonicalURL**): "scheme + host +
path (query parameters excluded from cache identity)".  Used only to
compare the spec's stated cache identity with `generateHtmlCacheKey`. -/
def specCanonicalUrl (u : UrlParts) : String :=
  u.protocol ++ "//" ++ u.hostname ++ u.pathname

/-- The `validation` record stored in a document-cache entry. -/
structure HtmlValidation where
  etag : Option String
  lastModified : Option String
deriving DecidableEq

/-- A document-cache entry (`cacheData` built in `cacheHtml`,
src/html-cache.js lines 93-101). -/
structure HtmlCacheEntry where
  html : String
  url : String
  timestamp : Nat
  validation : HtmlValidation
deriving DecidableEq

/-- The `HTML_CACHE` KV namespace: a key/value store. -/
abbrev HtmlCacheStore := List (String × HtmlCacheEntry)

/-- Environment bindings used by the document cache: the optional
`HTML_CACHE` binding and `HTML_CACHE_TTL` in seconds (default 86400). -/
structure HtmlCacheEnv where
  htmlCache : Option HtmlCacheStore
  htmlCacheTtl : Nat
deriving DecidableEq

/-- `getCachedHtml` (src/html-cache.js lines 30-69): absent binding or
absent key gives `null`; an entry older than `HTML_CACHE_TTL` seconds is
treated as absent (expiry is evaluated lazily on read).  `now` is
`Date.now()` in milliseconds. -/
def getCachedHtml (u : UrlParts) (env : HtmlCacheEnv) (now : Nat) : Option HtmlCacheEntry :=
  match env.htmlCache with
  | none => none
  | some store =>
    match store.lookup (generateHtmlCacheKey u) with
    | none => none
    | some e =>
      if now - e.timestamp > env.htmlCacheTtl * 1000 then none else some e

/-- Outcome of the origin `fetch` inside `fetchHtmlWithConditional`:
either the promise rejects (network error) or a response arrives with a
status, status text, validator headers and a body. -/
inductive OriginResult where
  | networkError
  | reply (status : Nat) (statusText : String)
      (etag : Option String) (lastModified : Option String) (body : String)
deriving DecidableEq

/-- `etag` header of an origin reply (`response.headers.get('etag')`). -/
def originEtag : OriginResult → Option String
  | .networkError => none
  | .reply _ _ e _ _ => e

/-- `last-modified` header of an origin reply. -/
def originLastModified : OriginResult → Option String
  | .networkError => none
  | .reply _ _ _ lm _ => lm

/-- `response.ok`: status in the inclusive range 200-299. -/
def statusOk (s : Nat) : Bool := 200 ≤ s && s ≤ 299

/-- The object returned by `fetchHtmlWithConditional` (fields `html`,
`fromCache`, `notModified`, `isFallback`, `validationInfo`; an absent
`isFallback` is modelled as `false`). -/
structure FetchHtmlResult where
  html : String
  fromCache : Bool
  notModified : Bool
  isFallback : Bool
  validationInfo : HtmlValidation
deriving DecidableEq

/-- The `catch` block of `fetchHtmlWithConditional` (src/html-cache.js
lines 201-227): with cached content available, fall back to it
(`X-Cache: HIT-FALLBACK`); otherwise re-throw. -/
def fallbackOrThrow (cachedData : Option HtmlCacheEntry) : Except Unit FetchHtmlResult :=
  match cachedData with
  | some cd => .ok ⟨cd.html, true, false, true, cd.validation⟩
  | none => .error ()

/-- `fetchHtmlWithConditional` (src/html-cache.js lines 122-228), after
the conditional request headers have been attached.  `origin` is the
outcome of the `fetch`; a 304 with cached data returns the cached body,
a 2xx returns the fresh body with the reply's validators, anything else
throws and is recovered by `fallbackOrThrow`. -/
def fetchHtmlWithConditional (cachedData : Option HtmlCacheEntry) (origin : OriginResult) :
    Except Unit FetchHtmlResult :=
  match origin with
  | .networkError => fallbackOrThrow cachedData
  | .reply status _ etag lastModified body =>
    if status == 304 && cachedData.isSome then
      match cachedData with
      | some cd => .ok ⟨cd.html, true, true, false, cd.validation⟩
      | none => .error ()
    else if statusOk status then
      .ok ⟨body, false, false, false, ⟨etag, lastModified⟩⟩
    else
      fallbackOrThrow cachedData

/-- The entry written by `cacheHtml` (src/html-cache.js lines 78-113):
body, original URL string, `Date.now()` and the reply's validator
headers. -/
def cacheHtmlEntry (u : UrlParts) (html : String) (origin : OriginResult) (now : Nat) :
    HtmlCacheEntry :=
  ⟨html, urlToString u, now, ⟨originEtag origin, originLastModified origin⟩⟩

/-- `getHtmlWithCache` (src/html-cache.js lines 237-262): read the cache,
do the conditional fetch, and cache new content (`cacheHtml` is a no-op
when the `HTML_CACHE` binding is absent).  The second component lists
the cache writes performed (key and entry). -/
def getHtmlWithCache (u : UrlParts) (env : HtmlCacheEnv) (now : Nat) (origin : OriginResult) :
    Except Unit (FetchHtmlResult × List (String × HtmlCacheEntry)) :=
  let cachedData := getCachedHtml u env now
  match fetchHtmlWithConditional cachedData origin with
  | .error e => .error e
  | .ok fr =>
    if !fr.fromCache && !fr.notModified then
      match env.htmlCache with
      | none => .ok (fr, [])
      | some _ => .ok (fr, [(generateHtmlCacheKey u, cacheHtmlEntry u fr.html origin now)])
    else
      .ok (fr, [])

/-- Failure condition of the origin interaction when a cached entry is
present: a network error, or a reply that is neither `304` nor 2xx. -/
def originFailedForCached : OriginResult → Bool
  | .networkError => true
  | .reply status _ _ _ _ => !(status == 304) && !(statusOk status)

/-- Failure condition of the origin interaction when NO cached entry is
present: a network error or any non-2xx reply (a bare `304` is not `ok`
and, without cached data, also ends in the throw path). -/
def originFailedNoCache : OriginResult → Bool
  | .networkError => true
  | .reply status _ _ _ _ => !(statusOk status)

/- ============ structured segments and the classification API ============ -/

/-- A structured-segments object, exactly as built by `callSegmentApi`: a
JavaScript object whose keys are slot ids mapping to arrays of segment
ids.  Modelled as an association list in key-insertion order; the object
starts life as `{ global: [] }`. -/
abbrev Segments := List (String × List String)

/-- `const structuredSegments = { global: [] }`. -/
def emptySegments : Segments := [("global", [])]

/-- `Object.keys(segments)` (insertion order). -/
def objectKeys (s : Segments) : List String := s.map Prod.fst

/-- `segments.global`. -/
def globalSegments (s : Segments) : List String := (s.lookup "global").getD []

/-- JavaScript property assignment `obj[k] = v`: replaces the value in
place when the key exists, otherwise appends the key. -/
def setSlot (s : Segments) (k : String) (v : List String) : Segments :=
  if s.any (fun p => p.1 == k) then
    s.map (fun p => if p.1 == k then (k, v) else p)
  else
    s ++ [(k, v)]

/-- One impression of the classification reply (`destination.imp[i]`).
`segs` models `impression.ext.scope3.segments.map(segment => segment.id)`
when `impression.ext.scope3.segments` is present, else `none`. -/
structure ApiImp where
  tagid : Option String
  id : Option String
  segs : Option (List String)

/-- One destination of the classification reply (`data.data[i]`); an
absent or non-array `imp` is the empty list. -/
structure ApiDest where
  imp : List ApiImp

/-- Parsed JSON body of the classification reply: `error` is the
truthiness of `data.error`, `dests` models `data.data` (absent or
non-array modelled as the empty list). -/
structure ApiData where
  error : Bool
  dests : List ApiDest

/-- JavaScript truthiness of `impression.tagid || impression.id`
(the empty string is falsy). -/
def truthyStr : Option String → Option String
  | none => none
  | some s => if s == "" then none else some s

/-- `impression.tagid || impression.id`. -/
def slotIdOf (i : ApiImp) : Option String :=
  match truthyStr i.tagid with
  | some t => some t
  | none => truthyStr i.id

/-- The segment-extraction loop shared verbatim by part_005 (lines
166-192) and part_007 (lines 158-184): fold all impressions of all
destinations into `{ global: [] }`. -/
def buildStructuredSegments (d : ApiData) : Segments :=
  d.dests.foldl
    (fun acc dest =>
      dest.imp.foldl
        (fun acc i =>
          match i.segs with
          | none => acc
          | some segs =>
            match slotIdOf i with
            | none => acc
            | some sid => setSlot acc sid segs)
        acc)
    emptySegments

/-- Outcome of one classification call: the deadline fires
(`AbortError`), the transport fails, the body is not JSON, or a parsed
body arrives. -/
inductive ApiOutcome where
  | timeout
  | transportError
  | parseError
  | ok (data : ApiData)

/-- Did the call fail before producing a parsed body? -/
def apiFailed : ApiOutcome → Bool
  | .ok _ => false
  | _ => true

/-- `callSegmentApi` of part_005 (lines 125-204): a JSON-parse failure
returns `{ global: [] }` inside the `try`, and the surrounding `catch`
(timeout / transport error) also returns `{ global: [] }`; a parsed body
is folded into structured segments (no `data.error` check in this
variant). -/
def callSegmentApi5 : ApiOutcome → Segments
  | .timeout => emptySegments
  | .transportError => emptySegments
  | .parseError => emptySegments
  | .ok d => buildStructuredSegments d

/-- `callSegmentApi` of part_007 (lines 111-203): a JSON-parse failure, a
body carrying `data.error`, and the outer `catch` (timeout / transport
error) all return `null` "to prevent caching"; otherwise the structured
segments are returned (even when only the empty global slot remains). -/
def callSegmentApi7 : ApiOutcome → Option Segments
  | .timeout => none
  | .transportError => none
  | .parseError => none
  | .ok d => if d.error then none else some (buildStructuredSegments d)

/-- `structuredSegments || { global: [] }` (part_005 line 697, part_007
line 671): the injection step substitutes the empty object for `null`. -/
def segmentsOrEmpty : Option Segments → Segments
  | none => emptySegments
  | some s => s

/-- The segment-cache write condition of part_005's `handleRequest`
(line 93): `segments && Object.keys(segments).length > 0`. -/
def shouldCacheSegments5 (s : Segments) : Bool :=
  decide (0 < (objectKeys s).length)

/-- The segment-cache write condition of part_007's `handleRequest`
(lines 78-79): `segments && Object.keys(segments).length > 0 &&
(segments.global.length > 0 || Object.keys(segments).some(key => key !==
'global'))`, applied to a non-null `segments`. -/
def shouldCacheSegments7 (s : Segments) : Bool :=
  decide (0 < (objectKeys s).length) &&
    (decide (0 < (globalSegments s).length) ||
      (objectKeys s).any (fun key => key != "global"))

/-- Outcome of the `src/index.js` classification call
(`getScope3SegmentsWithTimeout`): deadline abort, transport failure,
non-2xx status (`!response.ok`), unparsable JSON body, or a parsed body
modelled by its `url_classifications.key_vals` list (`none` when the
reply carries no `url_classifications`/`key_vals`). -/
inductive IdxApiOutcome where
  | timeout
  | transportError
  | httpError
  | parseError
  | ok (keyVals : Option (List (String × List String)))

/-- Did the index.js call fail before producing a parsed body? -/
def idxApiFailed : IdxApiOutcome → Bool
  | .ok _ => false
  | _ => true

/-- The API-call portion of `getScope3SegmentsWithTimeout`
(src/index.js lines 1488-1578, with an API key present so the mock
branches are not taken): every failure returns `[]` — an `AbortError` is
logged and returns `[]` (lines 1571-1574), any other thrown error
returns `[]` (lines 1576-1577), a non-ok status returns `[]` (lines
1541-1545) — and a parsed body yields the `values` of the
`scope3_segs` key-val, else `[]`. -/
def getScope3SegmentsWithTimeout : IdxApiOutcome → List String
  | .timeout => []
  | .transportError => []
  | .httpError => []
  | .parseError => []
  | .ok keyVals =>
    match keyVals with
    | none => []
    | some kvs =>
      match kvs.find? (fun kv => kv.1 == "scope3_segs") with
      | some kv => kv.2
      | none => []

/- ============ OpenRTB classification requests and cache keys ============ -/

/-- `site.ext.scope3` of the OpenRTB request (`etag || ""`,
`lastModified || ""`). -/
structure Scope3Ext where
  etag : String
  last_modified : String
deriving DecidableEq

/-- `site` of the OpenRTB request. -/
structure SiteData where
  domain : String
  page : String
  ext : Scope3Ext
deriving DecidableEq

/-- `device.geo` of the OpenRTB request: `country` is always set; the
remaining fields are attached only when truthy / finite
(part_005 lines 634-640, part_007 lines 581-587). -/
structure GeoData where
  country : String
  region : Option String
  city : Option String
  zip : Option String
  lat : Option Int
  lon : Option Int
  utcoffset : Option String
deriving DecidableEq

/-- `device` of the OpenRTB request.  `os` is `result.os.name` from the
user-agent parse and may be `undefined` (then `JSON.stringify` omits the
key); `make`/`model` default to `""`. -/
structure DeviceData where
  devicetype : Nat
  geo : GeoData
  ua : String
  os : Option String
  make : String
  model : String
deriving DecidableEq

/-- One `user.ext.eids` entry, reduced to its `source` and the `id`s of
its `uids`.  (The per-source `uids[i].ext` payloads are not modelled:
part_005-built requests carry no `user` object at all, and part_007's
`getCacheKey` keeps only `(source, uids[0].id)` pairs.) -/
structure EidData where
  source : String
  uids : List String
deriving DecidableEq

/-- The OpenRTB request built by `buildOpenRtbRequest`.  `imp` is always
`[{ id: "1" }]` and is left implicit.  part_005's builder (lines
525-643) never creates a `user` object (`user := none`); part_007's
(lines 344-590) attaches `user.ext.eids` only when at least one identity
token was found. -/
structure OpenRtbRequest where
  site : SiteData
  device : DeviceData
  user : Option (List EidData)
deriving DecidableEq

/-- JSON string escaping as performed by `JSON.stringify` on one
character (backslash, double quote, and control characters; code points
≥ 0x20 other than `"` and `\` pass through unchanged). -/
def jsonEscapeChar (c : Char) : List Char :=
  if c = '"' then ['\\', '"']
  else if c = '\\' then ['\\', '\\']
  else if c = '\n' then ['\\', 'n']
  else if c = '\r' then ['\\', 'r']
  else if c = '\t' then ['\\', 't']
  else if c = '\x08' then ['\\', 'b']
  else if c = '\x0c' then ['\\', 'f']
  else if c.toNat < 32 then
    '\\' :: 'u' :: '0' :: '0' ::
      (Nat.toDigits 16 (c.toNat / 16) ++ Nat.toDigits 16 (c.toNat % 16))
  else [c]

/-- `JSON.stringify` escaping of a whole string (without the quotes). -/
def jsonEscape (s : String) : String :=
  ⟨s.data.foldr (fun c acc => jsonEscapeChar c ++ acc) []⟩

/-- A JSON string literal: `"` + escaped body + `"`. -/
def jsonStr (s : String) : String := "\"" ++ jsonEscape s ++ "\""

/-- Is every character of `s` left unchanged by JSON escaping? -/
def plainJsonString (s : String) : Bool :=
  s.data.all (fun c => 32 ≤ c.toNat && c ≠ '"' && c ≠ '\\')

/-- `JSON.stringify` of `device.geo` in property-insertion order:
`country` first, then the optional fields in the order the builders
attach them. -/
def serializeGeo (g : GeoData) : String :=
  "\x7b\"country\":" ++ jsonStr g.country
  ++ (match g.region with | some v => ",\"region\":" ++ jsonStr v | none => "")
  ++ (match g.city with | some v => ",\"city\":" ++ jsonStr v | none => "")
  ++ (match g.zip with | some v => ",\"zip\":" ++ jsonStr v | none => "")
  ++ (match g.lat with | some v => ",\"lat\":" ++ toString v | none => "")
  ++ (match g.lon with | some v => ",\"lon\":" ++ toString v | none => "")
  ++ (match g.utcoffset with | some v => ",\"utcoffset\":" ++ jsonStr v | none => "")
  ++ "\x7d"

/-- `JSON.stringify` of `site`. -/
def serializeSite (s : SiteData) : String :=
  "\x7b\"domain\":" ++ jsonStr s.domain
  ++ ",\"page\":" ++ jsonStr s.page
  ++ ",\"ext\":\x7b\"scope3\":\x7b\"etag\":" ++ jsonStr s.ext.etag
  ++ ",\"last_modified\":" ++ jsonStr s.ext.last_modified
  ++ "\x7d\x7d\x7d"

/-- `JSON.stringify` of `device` as built (keys `devicetype`, `geo`,
`ua`, `os`, `make`, `model`; an `undefined` `os` is omitted). -/
def serializeDeviceRaw (d : DeviceData) : String :=
  "\x7b\"devicetype\":" ++ toString d.devicetype
  ++ ",\"geo\":" ++ serializeGeo d.geo
  ++ ",\"ua\":" ++ jsonStr d.ua
  ++ (match d.os with | some o => ",\"os\":" ++ jsonStr o | none => "")
  ++ ",\"make\":" ++ jsonStr d.make
  ++ ",\"model\":" ++ jsonStr d.model
  ++ "\x7d"

/-- `JSON.stringify(apiRequest)` for a part_005-built request (top-level
keys `site`, `imp`, `device`; part_005's builder attaches no `user`
object). -/
def serializeRequest5 (r : OpenRtbRequest) : String :=
  "\x7b\"site\":" ++ serializeSite r.site
  ++ ",\"imp\":[\x7b\"id\":\"1\"\x7d]"
  ++ ",\"device\":" ++ serializeDeviceRaw r.device
  ++ "\x7d"

/-- Wrap a JavaScript number into a signed 32-bit integer (`| 0` / `&`
semantics). -/
def toInt32 (x : Int) : Int :=
  let r := x % 4294967296
  if r < 2147483648 then r else r - 4294967296

/-- One step of part_005's `simpleHash` (lines 652-660):
`hash = ((hash << 5) - hash) + char; hash = hash & hash`.  `<<` wraps
its result to Int32; the subtraction and addition are exact; the final
`&` wraps again. -/
def simpleHashStep (h : Int) (c : Nat) : Int :=
  toInt32 (toInt32 (h * 32) - h + c)

/-- part_005's `simpleHash` folded over the code units of the string
(`charCodeAt`; this agrees with the code points for the ASCII strings
the key builder produces). -/
def simpleHash (s : String) : Int :=
  s.data.foldl (fun h c => simpleHashStep h c.toNat) 0

/-- `simpleHash` continued from an intermediate state (used to evaluate
the hash of a long string in bounded-depth chunks). -/
def simpleHashFrom (h : Int) (l : List Char) : Int :=
  l.foldl (fun h c => simpleHashStep h c.toNat) h

/-- `getCacheKey` of part_005 (lines 650-669): hash the raw
`JSON.stringify` of the request — including the verbatim `ua` string —
with `simpleHash`, take `Math.abs(hash).toString(16)`, and prefix the
API hostname. -/
def getCacheKey5 (r : OpenRtbRequest) : String :=
  "rtdp.scope3.com:" ++ ⟨Nat.toDigits 16 (simpleHash (serializeRequest5 r)).natAbs⟩

/-- The user-agent parse result used by part_007's `getCacheKey`
(`result.browser.name`, `result.os.name`; either may be `undefined`). -/
structure UaResult where
  browser : Option String
  os : Option String
deriving DecidableEq

/-- `JSON.stringify` of the `ua_normalized` object `{ browser, os,
device }` (part_007 lines 608-612); `undefined` fields are omitted. -/
def serializeUaNormalized (browser os : Option String) (device : Nat) : String :=
  let fields :=
    (match browser with | some b => ["\"browser\":" ++ jsonStr b] | none => [])
    ++ (match os with | some o => ["\"os\":" ++ jsonStr o] | none => [])
    ++ ["\"device\":" ++ toString device]
  "\x7b" ++ String.intercalate "," fields ++ "\x7d"

/-- `JSON.stringify` of the normalized `device` of part_007's
`getCacheKey`: `ua` deleted, `ua_normalized` appended last. -/
def serializeDeviceNormalized (parse : String → UaResult) (d : DeviceData) : String :=
  "\x7b\"devicetype\":" ++ toString d.devicetype
  ++ ",\"geo\":" ++ serializeGeo d.geo
  ++ (match d.os with | some o => ",\"os\":" ++ jsonStr o | none => "")
  ++ ",\"make\":" ++ jsonStr d.make
  ++ ",\"model\":" ++ jsonStr d.model
  ++ ",\"ua_normalized\":" ++
      serializeUaNormalized (parse d.ua).browser (parse d.ua).os d.devicetype
  ++ "\x7d"

/-- The `(source, uids[0].id)` pairs extracted by part_007's
`getCacheKey` (lines 617-629): eids with an empty `uids` array are
skipped. -/
def extractUserIds (eids : List EidData) : List (String × String) :=
  eids.filterMap (fun e => e.uids.head?.map (fun i => (e.source, i)))

/-- `JSON.stringify` of the `user_ids` array. -/
def serializeUserIds (ids : List (String × String)) : String :=
  "[" ++ String.intercalate ","
    (ids.map (fun p => "\x7b\"source\":" ++ jsonStr p.1 ++ ",\"id\":" ++ jsonStr p.2 ++ "\x7d"))
  ++ "]"

/-- The normalized serialization hashed by part_007's `getCacheKey`
(lines 597-640): `ua` is replaced by `ua_normalized` (only when `ua` is
truthy — an empty `ua` string skips the normalization), `user` is
dropped, and `user_ids` is appended when non-empty. -/
def serializeNormalizedRequest7 (parse : String → UaResult) (r : OpenRtbRequest) : String :=
  let userIds := extractUserIds (r.user.getD [])
  let deviceStr :=
    if r.device.ua == "" then serializeDeviceRaw r.device
    else serializeDeviceNormalized parse r.device
  "\x7b\"site\":" ++ serializeSite r.site
  ++ ",\"imp\":[\x7b\"id\":\"1\"\x7d]"
  ++ ",\"device\":" ++ deviceStr
  ++ (if userIds.isEmpty then "" else ",\"user_ids\":" ++ serializeUserIds userIds)
  ++ "\x7d"

/-- `getCacheKey` of part_007 (lines 597-645): SHA-256 of the normalized
serialization, truncated to 16 hex characters, prefixed by the API
hostname.  The hash itself is kept abstract (`sha256hex` parameter); the
theorems about this key reason about the normalized serialization. -/
def getCacheKey7 (sha256hex : String → String) (parse : String → UaResult)
    (r : OpenRtbRequest) : String :=
  "rtdp.scope3.com:" ++ (sha256hex (serializeNormalizedRequest7 parse r)).take 16

/-- Replace only the raw user-agent string of a request. -/
def setRequestUa (r : OpenRtbRequest) (ua : String) : OpenRtbRequest :=
  { r with device := { r.device with ua := ua } }

/-- Replace only the page URL of a request. -/
def setRequestPage (r : OpenRtbRequest) (page : String) : OpenRtbRequest :=
  { r with site := { r.site with page := page } }

/-- Replace only the `etag` validator of a request. -/
def setRequestEtag (r : OpenRtbRequest) (etag : String) : OpenRtbRequest :=
  { r with site := { r.site with ext := { r.site.ext with etag := etag } } }

/-- Replace only the `last_modified` validator of a request. -/
def setRequestLastModified (r : OpenRtbRequest) (lm : String) : OpenRtbRequest :=
  { r with site := { r.site with ext := { r.site.ext with last_modified := lm } } }

/- ============ part_005 / part_007 HTML injection ============ -/

/-- Case-insensitive list prefix test (for the `/i` regex flags). -/
def startsWithCI : List Char → List Char → Bool
  | [], _ => true
  | _ :: _, [] => false
  | p :: ps, c :: cs => (p.toLower == c.toLower) && startsWithCI ps cs

/-- JavaScript `\s` for the whitespace the worker's patterns can meet
(space, tab, line feed, carriage return, vertical tab, form feed). -/
def isJsWhitespace (c : Char) : Bool :=
  c == ' ' || c == '\t' || c == '\n' || c == '\r' || c == '\x0b' || c == '\x0c'

/-- Index of the first occurrence of a character. -/
def findCharIdx (t : Char) : List Char → Option Nat
  | [] => none
  | c :: cs => if c == t then some 0 else (findCharIdx t cs).map (· + 1)

/-- Length of the match of `\<head(\s+[^>]*)?\>` (case-insensitive) when
it matches at the head of `l`: `<head` followed either directly by `>`
or by whitespace and then everything up to the first `>`. -/
def matchHeadTagAt (l : List Char) : Option Nat :=
  if startsWithCI "<head".data l then
    match l.drop 5 with
    | '>' :: _ => some 6
    | c :: rest =>
      if isJsWhitespace c then
        match findCharIdx '>' (c :: rest) with
        | some j => some (5 + j + 1)
        | none => none
      else none
    | [] => none
  else none

/-- `html.match(/\<head(\s+[^>]*)?\>/i)`: position and length of the
first head-tag match. -/
def findHeadMatch : List Char → Option (Nat × Nat)
  | [] => none
  | c :: cs =>
    match matchHeadTagAt (c :: cs) with
    | some len => some (0, len)
    | none => (findHeadMatch cs).map (fun p => (p.1 + 1, p.2))

/-- `injectIntoHead` of part_005 (lines 671-685) and part_007 (lines
647-661): insert the script immediately after the complete `<head ...>`
tag; when no head tag is found, return the HTML unchanged. -/
def injectIntoHead (html scriptToInject : String) : String :=
  match findHeadMatch html.data with
  | some (i, len) =>
    ⟨html.data.take (i + len) ++ scriptToInject.data ++ html.data.drop (i + len)⟩
  | none => html

/-- `JSON.stringify` of an array of strings. -/
def jsonStringifyStrList (l : List String) : String :=
  "[" ++ String.intercalate "," (l.map jsonStr) ++ "]"

/-- `JSON.stringify` of a structured-segments object (keys in insertion
order). -/
def jsonStringifySegments (s : Segments) : String :=
  "\x7b" ++
    String.intercalate ","
      (s.map (fun p => jsonStr p.1 ++ ":" ++ jsonStringifyStrList p.2))
  ++ "\x7d"

/-- The script text assembled by part_005's `insertScope3Segments`
(lines 693-704): the scope3 bootstrap plus, in proxy mode, a `<base>`
tag. -/
def scope3HeaderScript (structuredSegments : Option Segments) (baseUrl : Option String) : String :=
  "<script>\n  window.scope3 = window.scope3 || \x7b\x7d;\n  window.scope3.segments = "
  ++ jsonStringifySegments (segmentsOrEmpty structuredSegments)
  ++ ";\n</script>"
  ++ (match baseUrl with | some b => "<base href=" ++ b ++ "/>" | none => "")

/-- `insertScope3Segments` of part_005 (lines 693-704): build the script
(defaulting `null` segments to `{ global: [] }`) and hand it to
`injectIntoHead`. -/
def insertScope3Segments (html : String) (baseUrl : Option String)
    (structuredSegments : Option Segments) : String :=
  injectIntoHead html (scope3HeaderScript structuredSegments baseUrl)

/- ============ src/index.js injection scripts ============ -/

/-- Literal part of `segmentScript` before the serialized segments
(src/index.js lines 1665-1667). -/
def segScriptA : String := "\n<script>\n  window.scope3_segments = "

/-- Literal part of `segmentScript` after the serialized segments
(src/index.js lines 1667-1702). -/
def segScriptB : String := ";\n  console.log(\"Scope3 segments loaded:\", window.scope3_segments);\n\n  // Add a visual indicator of segments (will be removed in production)\n  document.addEventListener('DOMContentLoaded', function() \x7b\n    const segmentIndicator = document.createElement('div');\n    segmentIndicator.style.position = 'fixed';\n    segmentIndicator.style.bottom = '10px';\n    segmentIndicator.style.right = '10px';\n    segmentIndicator.style.padding = '10px';\n    segmentIndicator.style.borderRadius = '5px';\n    segmentIndicator.style.zIndex = '99999';\n    segmentIndicator.style.maxWidth = '300px';\n    segmentIndicator.style.fontSize = '12px';\n    segmentIndicator.style.fontFamily = 'monospace';\n    \n    // Style based on whether segments were found\n    if (window.scope3_segments && window.scope3_segments.length > 0) \x7b\n      segmentIndicator.style.backgroundColor = 'rgba(0, 0, 0, 0.7)';\n      segmentIndicator.style.color = 'white';\n      segmentIndicator.innerHTML = '<strong>Scope3 Segments:</strong><br>' +\n        window.scope3_segments.map(s => '• ' + s).join('<br>');\n    \x7d else \x7b\n      // Lighter style for no segments\n      segmentIndicator.style.backgroundColor = 'rgba(0, 0, 0, 0.5)';\n      segmentIndicator.style.color = 'rgba(255, 255, 255, 0.8)';\n      segmentIndicator.innerHTML = '<strong>Scope3 Segments:</strong><br>No segments found';\n    \x7d\n    \n    // Only append to body if it exists\n    if (document.body) \x7b\n      document.body.appendChild(segmentIndicator);\n    \x7d\n  \x7d);\n</script>\n"

/-- `segmentScript` of `injectSegmentsIntoPage` (src/index.js lines
1665-1702): the literal template around
`JSON.stringify(safeSegments)`. -/
def segmentScript (safeSegments : List String) : String :=
  segScriptA ++ jsonStringifyStrList safeSegments ++ segScriptB

/-- Literal parts of `urlFixerScript` (src/index.js lines 1789-1836)
split at its three interpolations. -/
def fixScriptA : String := "\n<script>\n  // Fix any remaining relative URLs when the page loads\n  document.addEventListener('DOMContentLoaded', function() \x7b\n    // Get base domain from current page\n    const baseUrl = '"

/-- Second literal part of `urlFixerScript`. -/
def fixScriptB : String := "';\n    const basePath = '"

/-- Third literal part of `urlFixerScript`. -/
def fixScriptC : String := "';\n    const baseDir = basePath.substring(0, basePath.lastIndexOf('/') + 1);\n\n    // Helper function to resolve relative URLs\n    function resolveUrl(url) \x7b\n      if (!url) return url;\n      if (url.startsWith('//')) return '"

/-- Fourth literal part of `urlFixerScript`. -/
def fixScriptD : String := "' + url;\n      if (url.startsWith('http://') || url.startsWith('https://')) return url;\n      if (url.startsWith('/')) return baseUrl + url;\n      return baseUrl + baseDir + url;\n    \x7d\n\n    // Function to fix URLs in all applicable elements\n    function fixElementUrls() \x7b\n      // Fix common URL attributes\n      const urlAttrs = ['src', 'href', 'action', 'data-src', 'data-href'];\n      urlAttrs.forEach(attr => \x7b\n        document.querySelectorAll('[' + attr + ']').forEach(el => \x7b\n          const value = el.getAttribute(attr);\n          if (value && !value.startsWith('http') && !value.startsWith('#') && !value.startsWith('javascript:') && !value.startsWith('data:')) \x7b\n            el.setAttribute(attr, resolveUrl(value));\n          \x7d\n        \x7d);\n      \x7d);\n    \x7d\n\n    // Run once on load\n    fixElementUrls();\n\n    // Also handle dynamically added elements\n    const observer = new MutationObserver(function(mutations) \x7b\n      fixElementUrls();\n    \x7d);\n    \n    // Start observing the document\n    observer.observe(document.documentElement, \x7b\n      childList: true,\n      subtree: true\n    \x7d);\n  \x7d);\n</script>\n"

/-- `urlFixerScript` with its interpolations filled in:
`originBase = protocol + '//' + host`, `basePath = originalUrl?.pathname
|| '/'`, and the protocol for protocol-relative references. -/
def urlFixerScript (u : UrlParts) : String :=
  fixScriptA ++ (u.protocol ++ "//" ++ u.host)
  ++ fixScriptB ++ (if u.pathname == "" then "/" else u.pathname)
  ++ fixScriptC ++ u.protocol
  ++ fixScriptD

/- ============ src/index.js protocol-relative URL rewriting ============ -/

/-- The single-quote character (written via its code point to keep the
source free of quote-literal noise). -/
def singleQuoteChar : Char := Char.ofNat 39

/-- Is `c` one of the quote characters of the `["']` character class? -/
def isQuote (c : Char) : Bool := c == '"' || c == singleQuoteChar

/-- Length of the leading run of JavaScript whitespace. -/
def countLeadingWs : List Char → Nat
  | [] => 0
  | c :: cs => if isJsWhitespace c then countLeadingWs cs + 1 else 0

/-- Generic global-replace scanner: at each position try the matcher; on
a match emit its replacement and continue after the consumed characters
(the `lastIndex` semantics of a `/g` regex replace).  `fuel` is the
input length; every matcher below consumes at least one character. -/
def replaceScan (m : List Char → Option (List Char × Nat)) : Nat → List Char → List Char
  | 0, l => l
  | _ + 1, [] => []
  | fuel + 1, c :: cs =>
    match m (c :: cs) with
    | some (repl, used) => repl ++ replaceScan m fuel ((c :: cs).drop used)
    | none => c :: replaceScan m fuel cs

/-- Run a matcher as a global replace over a string. -/
def runReplaceAll (m : List Char → Option (List Char × Nat)) (s : String) : String :=
  ⟨replaceScan m s.data.length s.data⟩

/-- The attribute alternatives of rewrite 1 (src/index.js line 1742), in
regex-alternation order, with the `data-(?:...)` group expanded. -/
def attrNames1 : List String :=
  ["src", "href", "srcset", "poster", "formaction", "ping", "background",
   "lowsrc", "cite", "action", "data-src", "data-href", "data-original",
   "data-url", "data-image", "data-background", "data-poster", "data-bg",
   "data-lazyload", "data-original-src", "data-fallback", "data-highres",
   "data-lowres"]

/-- First attribute alternative (regex order) for which
`name=["']//` continues at `rest`; returns the length of
`name` + `=` + quote. -/
def matchAttrName1 (rest : List Char) : List String → Option Nat
  | [] => none
  | n :: ns =>
    if startsWithCI n.data rest then
      match rest.drop n.length with
      | '=' :: q :: '/' :: '/' :: _ =>
        if isQuote q then some (n.length + 2) else matchAttrName1 rest ns
      | _ => matchAttrName1 rest ns
    else matchAttrName1 rest ns

/-- Rewrite 1: `/(\s(?:src|href|...)=["'])\/\//gi` →
`$1${protocol}//`. -/
def matchAttr1 (protocol : String) (l : List Char) : Option (List Char × Nat) :=
  match l with
  | c :: rest =>
    if isJsWhitespace c then
      match matchAttrName1 rest attrNames1 with
      | some k => some (l.take (1 + k) ++ protocol.data ++ ['/', '/'], 1 + k + 2)
      | none => none
    else none
  | [] => none

/-- Rewrite 2: `/(url\(["']?)\/\//gi` → `$1${protocol}//`. -/
def matchCssUrl (protocol : String) (l : List Char) : Option (List Char × Nat) :=
  if startsWithCI "url(".data l then
    match l.drop 4 with
    | c :: cs =>
      if isQuote c && listStartsWith ['/', '/'] cs then
        some (l.take 5 ++ protocol.data ++ ['/', '/'], 7)
      else if listStartsWith ['/', '/'] (c :: cs) then
        some (l.take 4 ++ protocol.data ++ ['/', '/'], 6)
      else none
    | [] => none
  else none

/-- Rewrite 3: `/(@import\s+["'])\/\//gi` → `$1${protocol}//`. -/
def matchImportCss (protocol : String) (l : List Char) : Option (List Char × Nat) :=
  if startsWithCI "@import".data l then
    let rest := l.drop 7
    let w := countLeadingWs rest
    if w == 0 then none
    else
      match rest.drop w with
      | q :: '/' :: '/' :: _ =>
        if isQuote q then
          some (l.take (7 + w + 1) ++ protocol.data ++ ['/', '/'], 7 + w + 3)
        else none
      | _ => none
  else none

/-- Tail of rewrite 4 (`\s+from\s+["']` followed by `//`): length
consumed through the quote when it matches at `l`. -/
def matchWsFrom (l : List Char) : Option Nat :=
  let w := countLeadingWs l
  if w == 0 then none
  else
    let r := l.drop w
    if startsWithCI "from".data r then
      let r2 := r.drop 4
      let w2 := countLeadingWs r2
      if w2 == 0 then none
      else
        match r2.drop w2 with
        | q :: '/' :: '/' :: _ => if isQuote q then some (w + 4 + w2 + 1) else none
        | _ => none
    else none

/-- Lazy `(?:.*?)` search of rewrite 4: smallest middle (no line
terminators) after which `\s+from\s+["']//` matches; returns the middle
length and the tail consumption through the quote. -/
def searchImportMiddle : List Char → Option (Nat × Nat)
  | [] => none
  | c :: cs =>
    match matchWsFrom (c :: cs) with
    | some t => some (0, t)
    | none =>
      if c == '\n' || c == '\r' then none
      else (searchImportMiddle cs).map (fun p => (p.1 + 1, p.2))

/-- Greedy-with-backtracking first `\s+` of rewrite 4: try the longest
whitespace run first, shrinking until the lazy middle search succeeds;
returns (ws length, middle length, tail consumption). -/
def tryWsImport (rest : List Char) : Nat → Option (Nat × Nat × Nat)
  | 0 => none
  | w + 1 =>
    match searchImportMiddle (rest.drop (w + 1)) with
    | some (m, t) => some (w + 1, m, t)
    | none => tryWsImport rest w

/-- Rewrite 4: `/((?:import|export)\s+(?:.*?)\s+from\s+["'])\/\//gi` →
`$1${protocol}//`. -/
def matchJsImport (protocol : String) (l : List Char) : Option (List Char × Nat) :=
  let tryName (n : String) : Option (List Char × Nat) :=
    if startsWithCI n.data l then
      let rest := l.drop n.length
      match tryWsImport rest (countLeadingWs rest) with
      | some (w, m, t) =>
        let g := n.length + w + m + t
        some (l.take g ++ protocol.data ++ ['/', '/'], g + 2)
      | none => none
    else none
  match tryName "import" with
  | some r => some r
  | none => tryName "export"

/-- The call-name alternatives of rewrite 5 (src/index.js line 1766). -/
def callNames4 : List String :=
  ["fetch", "load", "open", "ajax", "get", "post", "put", "delete",
   "request", "src", "href"]

/-- The call-name alternatives of rewrite 8 (src/index.js line 1784). -/
def shadowNames7 : List String :=
  ["createShadowRoot", "attachShadow", "innerHTML", "outerHTML"]

/-- Shared matcher for rewrites 5 and 8:
`/(NAME\s*\(\s*["'])\/\//gi` → `$1${protocol}//`. -/
def matchCallName (protocol : String) (l : List Char) : List String → Option (List Char × Nat)
  | [] => none
  | n :: ns =>
    if startsWithCI n.data l then
      let rest := l.drop n.length
      let w1 := countLeadingWs rest
      match rest.drop w1 with
      | '(' :: r2 =>
        let w2 := countLeadingWs r2
        match r2.drop w2 with
        | q :: '/' :: '/' :: _ =>
          if isQuote q then
            let g := n.length + w1 + 1 + w2 + 1
            some (l.take g ++ protocol.data ++ ['/', '/'], g + 2)
          else matchCallName protocol l ns
        | _ => matchCallName protocol l ns
      | _ => matchCallName protocol l ns
    else matchCallName protocol l ns

/-- The key-name alternatives of rewrite 6 (src/index.js line 1772). -/
def keyNames5 : List String :=
  ["url", "src", "href", "uri", "endpoint", "path", "link"]

/-- Rewrite 6: `/(["'](?:url|src|...)["']\s*:\s*["'])\/\//gi` →
`$1${protocol}//`. -/
def matchObjKey (protocol : String) (l : List Char) : List String → Option (List Char × Nat)
  | [] => none
  | n :: ns =>
    match l with
    | q1 :: rest =>
      if isQuote q1 && startsWithCI n.data rest then
        match rest.drop n.length with
        | q2 :: r2 =>
          if isQuote q2 then
            let w1 := countLeadingWs r2
            match r2.drop w1 with
            | ':' :: r3 =>
              let w2 := countLeadingWs r3
              match r3.drop w2 with
              | q3 :: '/' :: '/' :: _ =>
                if isQuote q3 then
                  let g := 1 + n.length + 1 + w1 + 1 + w2 + 1
                  some (l.take g ++ protocol.data ++ ['/', '/'], g + 2)
                else matchObjKey protocol l ns
              | _ => matchObjKey protocol l ns
            | _ => matchObjKey protocol l ns
          else matchObjKey protocol l ns
        | _ => matchObjKey protocol l ns
      else matchObjKey protocol l ns
    | [] => none

/-- Length of the leading run of non-quote characters (`[^"']*`). -/
def nonQuoteRun : List Char → Nat
  | [] => 0
  | c :: cs => if isQuote c then 0 else nonQuoteRun cs + 1

/-- One backtracking attempt of rewrite 7 at split `k`: does
`,\s*\/\/` continue after `k` body characters? -/
def srcsetAttempt (body : List Char) (k : Nat) : Option (Nat × Nat) :=
  match body.drop k with
  | ',' :: r =>
    let w := countLeadingWs r
    match r.drop w with
    | '/' :: '/' :: _ => some (k, w)
    | _ => none
  | _ => none

/-- Greedy backtracking of the `[^"']*` of rewrite 7: largest split
`≤ k` at which `,\s*\/\/` continues. -/
def srcsetBacktrack (body : List Char) : Nat → Option (Nat × Nat)
  | 0 => srcsetAttempt body 0
  | k + 1 =>
    match srcsetAttempt body (k + 1) with
    | some r => some r
    | none => srcsetBacktrack body k

/-- Rewrite 7: `/(\ssrcset=["'][^"']*),\s*\/\//gi` →
`$1, ${protocol}//` (note the normalized `", "`). -/
def matchSrcset6 (protocol : String) (l : List Char) : Option (List Char × Nat) :=
  match l with
  | c :: rest =>
    if isJsWhitespace c && startsWithCI "srcset=".data rest then
      match rest.drop 7 with
      | q :: body =>
        if isQuote q then
          match srcsetBacktrack body (nonQuoteRun body) with
          | some (k, w) =>
            let g := 1 + 7 + 1 + k
            some (l.take g ++ (", ").data ++ protocol.data ++ ['/', '/'], g + 1 + w + 2)
          | none => none
        else none
      | [] => none
    else none
  | [] => none

/-- The full protocol-relative rewrite pass of `injectSegmentsIntoPage`
(src/index.js lines 1739-1786), applying the eight global replaces in
source order. -/
def rewriteProtocolRelative (protocol : String) (s : String) : String :=
  let p1 := runReplaceAll (matchAttr1 protocol) s
  let p2 := runReplaceAll (matchCssUrl protocol) p1
  let p3 := runReplaceAll (matchImportCss protocol) p2
  let p4 := runReplaceAll (matchJsImport protocol) p3
  let p5 := runReplaceAll (fun l => matchCallName protocol l callNames4) p4
  let p6 := runReplaceAll (fun l => matchObjKey protocol l keyNames5) p5
  let p7 := runReplaceAll (matchSrcset6 protocol) p6
  runReplaceAll (fun l => matchCallName protocol l shadowNames7) p7

/- ============ src/index.js injection chains ============ -/

/-- The insertion chain of src/index.js lines 1838-1854, used when an
origin base is available (`payload` is `urlFixerScript +
segmentScript`): before an existing `</head>`; else after a literal
`<head>`; else after `<html>` wrapping the payload in a new head; else
after `<!DOCTYPE html>`; else prepend a new head. -/
def injectChainWithBase (payload : String) (html : String) : String :=
  if strIncludes html "</head>" then
    replaceFirst html "</head>" (payload ++ "</head>")
  else if strIncludes html "<head>" then
    replaceFirst html "<head>" ("<head>" ++ payload)
  else if strIncludes html "<html>" then
    replaceFirst html "<html>" ("<html><head>" ++ payload ++ "</head>")
  else if strIncludes html "<!DOCTYPE html>" then
    replaceFirst html "<!DOCTYPE html>" ("<!DOCTYPE html><head>" ++ payload ++ "</head>")
  else
    ("<head>" ++ payload ++ "</head>") ++ html

/-- The fallback insertion chain of src/index.js lines 1855-1864, used
when no origin information is available (only `segmentScript` is
injected and no URLs are rewritten). -/
def injectChainNoBase (payload : String) (html : String) : String :=
  if strIncludes html "</head>" then
    replaceFirst html "</head>" (payload ++ "</head>")
  else if strIncludes html "<head>" then
    replaceFirst html "<head>" ("<head>" ++ payload)
  else
    ("<head>" ++ payload ++ "</head>") ++ html

/-- The HTML transformation of `injectSegmentsIntoPage` (src/index.js
lines 1656-1864): with an origin URL, rewrite protocol-relative
references and inject `urlFixerScript + segmentScript`; without one,
inject only `segmentScript`. -/
def injectSegmentsIntoPageHtml (segments : List String) (urlOpt : Option UrlParts)
    (html : String) : String :=
  match urlOpt with
  | some u =>
    injectChainWithBase (urlFixerScript u ++ segmentScript segments)
      (rewriteProtocolRelative u.protocol html)
  | none => injectChainNoBase (segmentScript segments) html

/- ============ responses, headers, and the request handlers ============ -/

/-- A `Headers` object.  The Fetch API normalizes header names to lower
case; names are stored lowercased. -/
abbrev HeaderMap := List (String × String)

/-- `headers.get(name)` (case-insensitive; first entry). -/
def getHeader (hs : HeaderMap) (name : String) : Option String :=
  (hs.find? (fun p => p.1 == strToLower name)).map Prod.snd

/-- `headers.set(name, value)`: replace the entry in place when the
(lowercased) name exists, otherwise append it. -/
def setHeader (hs : HeaderMap) (name value : String) : HeaderMap :=
  let key := strToLower name
  if hs.any (fun p => p.1 == key) then
    hs.map (fun p => if p.1 == key then (key, value) else p)
  else
    hs ++ [(key, value)]

/-- The three CORS headers the worker sets on responses it touches
(src/index.js lines 834-837 and 1870-1872). -/
def corsify (hs : HeaderMap) : HeaderMap :=
  setHeader
    (setHeader
      (setHeader hs "Access-Control-Allow-Origin" "*")
      "Access-Control-Allow-Methods" "GET, OPTIONS")
    "Access-Control-Allow-Headers" "Content-Type"

/-- The lowercased names of the three CORS headers. -/
def corsHeaderNames : List String :=
  ["access-control-allow-origin", "access-control-allow-methods",
   "access-control-allow-headers"]

/-- An HTTP response: status, status text, headers and a body (bodies
are modelled as strings; for pass-through responses the body bytes are
never read). -/
structure HttpResponse where
  status : Nat
  statusText : String
  headers : HeaderMap
  body : String
deriving DecidableEq

/-- `injectSegmentsIntoPage` at the response level (src/index.js lines
1656-1880): transform the body, keep status and status text, and set the
CORS headers. -/
def injectSegmentsIntoPage (resp : HttpResponse) (segments : List String)
    (providedUrl : Option UrlParts) : HttpResponse :=
  { status := resp.status
    statusText := resp.statusText
    headers := corsify resp.headers
    body := injectSegmentsIntoPageHtml segments providedUrl resp.body }

/-- Segment-cache and classification operations performed while handling
one request; "no lookup / no classification / no write" is provable as
an empty or write-free operation list. -/
inductive SegCacheOp where
  | segRead (key : String)
  | classifyCall
  | segWrite (key : String)
deriving DecidableEq

/-- `handleProxyRequest` (src/index.js lines 808-892) from the point the
origin response has arrived: non-HTML content types are passed through
with only the CORS headers set and no cache or classification work;
HTML goes through the segment cache (`cachedSegs` is the result of
`getCachedSegments`), on a miss through
`getScope3SegmentsWithTimeout`, a conditional `cacheSegments`, and
`injectSegmentsIntoPage`. -/
def handleProxyRequest (target : UrlParts) (resp : HttpResponse)
    (cachedSegs : Option (List String)) (api : IdxApiOutcome) :
    HttpResponse × List SegCacheOp :=
  let contentType := (getHeader resp.headers "content-type").getD ""
  if !(strIncludes contentType "text/html") then
    ({ resp with headers := corsify resp.headers }, [])
  else
    let cacheKey := "url:" ++ urlToString target
    match cachedSegs with
    | some segs =>
      (injectSegmentsIntoPage resp segs (some target), [SegCacheOp.segRead cacheKey])
    | none =>
      let segs := getScope3SegmentsWithTimeout api
      let ops :=
        [SegCacheOp.segRead cacheKey, SegCacheOp.classifyCall]
        ++ (if decide (0 < segs.length) then [SegCacheOp.segWrite cacheKey] else [])
      (injectSegmentsIntoPage resp segs (some target), ops)

/-- `request.cf.bot_management`. -/
structure BotManagement where
  verifiedBot : Bool
  score : Option Int
deriving DecidableEq

/-- `request.cf` (only the field the handler consults). -/
structure CfData where
  botManagement : Option BotManagement
deriving DecidableEq

/-- The request metadata consulted by the bot check. -/
structure InboundMeta where
  cf : Option CfData
deriving DecidableEq

/-- The bot test of part_005 line 65 and part_007 line 50:
`request.cf?.bot_management?.verified_bot ||
request.cf?.bot_management?.score > 75` (an absent score compares
false). -/
def isBotRequest (m : InboundMeta) : Bool :=
  match m.cf with
  | none => false
  | some cf =>
    match cf.botManagement with
    | none => false
    | some bm =>
      bm.verifiedBot || (match bm.score with | some s => decide (75 < s) | none => false)

/-- The resource-extension suffixes of the test
`/\.(js|css|png|jpe?g|gif|svg|webp|mp4|webm|mp3|wav|pdf|json|xml|woff2?|ttf|otf)$/i`
(part_005 line 56, part_007 line 41). -/
def resourceSuffixes : List String :=
  [".js", ".css", ".png", ".jpg", ".jpeg", ".gif", ".svg", ".webp",
   ".mp4", ".webm", ".mp3", ".wav", ".pdf", ".json", ".xml", ".woff",
   ".woff2", ".ttf", ".otf"]

/-- `isResource`: does the lowercased pathname end in one of the
resource extensions? -/
def isResourcePath (pathname : String) : Bool :=
  resourceSuffixes.any (fun suf => listEndsWith (strToLower pathname).data suf.data)

/-- The I/O outcomes consumed by one run of part_005's `handleRequest`:
the origin response, the OpenRTB request built by `buildOpenRtbRequest`
(from the URL, the response validators, the user agent, geo data and
cookies — its construction is orthogonal to the handler's control flow
and is taken as an input here), the segment-cache lookup result, and
the classification outcome used on a cache miss. -/
structure Oracle5 where
  originResp : HttpResponse
  apiRequest : OpenRtbRequest
  cachedSegs : Option Segments
  apiOutcome : ApiOutcome

/-- `handleRequest` of part_005 (lines 43-117) from the point the URL
and the optional `/proxy/` base have been extracted: resource paths and
bot requests return the origin fetch unmodified; otherwise the segment
cache is read, a miss classifies and conditionally schedules a cache
write (`ctx.waitUntil(cacheSegments(...))`), and the page is returned
with `insertScope3Segments` applied to its body, preserving status,
status text and headers.  part_007's handler (lines 28-103) is
identical up to its stricter cache-write guard
(`shouldCacheSegments7`). -/
def handleRequest5 (u : UrlParts) (meta : InboundMeta) (baseUrl : Option String)
    (o : Oracle5) : HttpResponse × List SegCacheOp :=
  if isResourcePath u.pathname then (o.originResp, [])
  else if isBotRequest meta then (o.originResp, [])
  else
    let cacheKey := getCacheKey5 o.apiRequest
    match o.cachedSegs with
    | some segs =>
      ({ o.originResp with
          body := insertScope3Segments o.originResp.body baseUrl (some segs) },
        [SegCacheOp.segRead cacheKey])
    | none =>
      let segs := callSegmentApi5 o.apiOutcome
      let ops :=
        [SegCacheOp.segRead cacheKey, SegCacheOp.classifyCall]
        ++ (if shouldCacheSegments5 segs then [SegCacheOp.segWrite cacheKey] else [])
      ({ o.originResp with
          body := insertScope3Segments o.originResp.body baseUrl (some segs) },
        ops)

/- ============ concrete instances used by witnesses and counterexamples ============ -/

/-- `https://example.com/` parsed. -/
def uEx : UrlParts := ⟨"https:", "example.com", "example.com", "/", ""⟩

/-- `http://example.com/` parsed (same host and path, other scheme). -/
def uExHttp : UrlParts := ⟨"http:", "example.com", "example.com", "/", ""⟩

/-- A fresh cached document entry. -/
def entryEx : HtmlCacheEntry :=
  ⟨"<html>cached</html>", "https://example.com/", 1000, ⟨some "abc", some "Mon, 01 Jan 2024"⟩⟩

/-- A document-cache store holding `entryEx`. -/
def storeEx : HtmlCacheStore := [(generateHtmlCacheKey uEx, entryEx)]

/-- An environment with `storeEx` bound and the default TTL. -/
def envEx : HtmlCacheEnv := ⟨some storeEx, 86400⟩

/-- A cached document entry fetched at time 0 (expired at the times the
counterexample uses). -/
def entryStale : HtmlCacheEntry := ⟨"<html>stale</html>", "https://example.com/", 0, ⟨some "abc", none⟩⟩

/-- A document-cache store holding only `entryStale`. -/
def storeStale : HtmlCacheStore := [(generateHtmlCacheKey uEx, entryStale)]

/-- An environment with `storeStale` bound and the default TTL. -/
def envStale : HtmlCacheEnv := ⟨some storeStale, 86400⟩

/-- A geo record with only the always-present country. -/
def geoUS : GeoData := ⟨"US", none, none, none, none, none, none⟩

/-- A concrete classification request (as part_005's builder shapes it:
no `user` object). -/
def reqA : OpenRtbRequest :=
  { site := { domain := "example.com", page := "https://example.com/Aa",
              ext := { etag := "W-1", last_modified := "" } }
    device := { devicetype := 2, geo := geoUS, ua := "UA-Alpha",
                os := some "Mac OS", make := "", model := "" }
    user := none }

/-- A user-agent parser stub that maps every string to the same
browser/OS families (two raw UA strings with equal parse results). -/
def parseConst : String → UaResult := fun _ => ⟨some "Chrome", some "Mac OS"⟩

/-- A concrete HTML origin response. -/
def respEx : HttpResponse :=
  ⟨200, "OK", [("content-type", "text/html")], "<html><head></head><body>x</body></html>"⟩

/-- Request metadata with no `cf` object. -/
def metaPlain : InboundMeta := ⟨none⟩

/-- Request metadata flagged as a verified bot. -/
def metaBot : InboundMeta := ⟨some ⟨some ⟨true, none⟩⟩⟩

/-- Request metadata with a bot-management score of 90. -/
def metaScored : InboundMeta := ⟨some ⟨some ⟨false, some 90⟩⟩⟩

/-- A document URL (non-resource path). -/
def uPage : UrlParts := ⟨"https:", "example.com", "example.com", "/article", ""⟩

/-- Oracle for a part_005 run whose segment-cache misses and whose
classification call times out. -/
def oracleTimeout : Oracle5 := ⟨respEx, reqA, none, ApiOutcome.timeout⟩

/-- A non-HTML (image) origin response with an extra custom header. -/
def respPng : HttpResponse :=
  ⟨200, "OK", [("content-type", "image/png"), ("x-custom", "v")], "PNGBYTES"⟩

/- ==== reshaping helpers for the part_007 normalized serialization ==== -/

/-- Everything of the normalized part_007 serialization after the
`site` object (identical atoms to `serializeNormalizedRequest7`). -/
def serTail7 (parse : String → UaResult) (r : OpenRtbRequest) : String :=
  ",\"imp\":[\x7b\"id\":\"1\"\x7d]" ++ ",\"device\":"
  ++ (if r.device.ua == "" then serializeDeviceRaw r.device
      else serializeDeviceNormalized parse r.device)
  ++ (if (extractUserIds (r.user.getD [])).isEmpty then ""
      else ",\"user_ids\":" ++ serializeUserIds (extractUserIds (r.user.getD [])))
  ++ "\x7d"

/-- The normalized serialization up to (and including) the opening quote
of the `page` value. -/
def pageA (r : OpenRtbRequest) : String :=
  "\x7b\"site\":" ++ "\x7b\"domain\":" ++ jsonStr r.site.domain ++ ",\"page\":" ++ "\""

/-- The normalized serialization from the closing quote of the `page`
value on. -/
def pageB (parse : String → UaResult) (r : OpenRtbRequest) : String :=
  "\"" ++ ",\"ext\":\x7b\"scope3\":\x7b\"etag\":" ++ jsonStr r.site.ext.etag
  ++ ",\"last_modified\":" ++ jsonStr r.site.ext.last_modified ++ "\x7d\x7d\x7d"
  ++ serTail7 parse r

/-- The normalized serialization up to the opening quote of the `etag`
value. -/
def etagA (r : OpenRtbRequest) : String :=
  "\x7b\"site\":" ++ "\x7b\"domain\":" ++ jsonStr r.site.domain ++ ",\"page\":"
  ++ jsonStr r.site.page ++ ",\"ext\":\x7b\"scope3\":\x7b\"etag\":" ++ "\""

/-- The normalized serialization from the closing quote of the `etag`
value on. -/
def etagB (parse : String → UaResult) (r : OpenRtbRequest) : String :=
  "\"" ++ ",\"last_modified\":" ++ jsonStr r.site.ext.last_modified ++ "\x7d\x7d\x7d"
  ++ serTail7 parse r

/-- The normalized serialization up to the opening quote of the
`last_modified` value. -/
def lmA (r : OpenRtbRequest) : String :=
  "\x7b\"site\":" ++ "\x7b\"domain\":" ++ jsonStr r.site.domain ++ ",\"page\":"
  ++ jsonStr r.site.page ++ ",\"ext\":\x7b\"scope3\":\x7b\"etag\":" ++ jsonStr r.site.ext.etag
  ++ ",\"last_modified\":" ++ "\""

/-- The normalized serialization from the closing quote of the
`last_modified` value on. -/
def lmB (parse : String → UaResult) (r : OpenRtbRequest) : String :=
  "\"" ++ "\x7d\x7d\x7d" ++ serTail7 parse r

/- ===================== helper lemmas ===================== -/

/-- `String.data` distributes over append. -/
theorem strData_append (s t : String) : (s ++ t).data = s.data ++ t.data := rfl

/-- Strings with equal character lists are equal. -/
theorem strEq_of_data {s t : String} (h : s.data = t.data) : s = t := by
  cases s; cases t; cases h; rfl

/-- A successful prefix test decomposes the list. -/
theorem listStartsWith_decomp : ∀ (p l : List Char), listStartsWith p l = true →
    l = p ++ l.drop p.length := by
  intro p
  induction p with
  | nil => intro l _; simp
  | cons x xs ih =>
    intro l h
    cases l with
    | nil => simp [listStartsWith] at h
    | cons c cs =>
      simp only [listStartsWith, Bool.and_eq_true, beq_iff_eq] at h
      obtain ⟨hx, hrest⟩ := h
      subst hx
      simpa using ih cs hrest

/-- A list prefixes itself extended by anything. -/
theorem listStartsWith_self_append : ∀ (p t : List Char), listStartsWith p (p ++ t) = true := by
  intro p
  induction p with
  | nil => intro t; simp [listStartsWith]
  | cons x xs ih => intro t; simp [listStartsWith, ih]

/-- A successful `splitFirst` decomposes the list around the pattern. -/
theorem splitFirst_decomp_pair (pat : List Char) :
    ∀ (l : List Char) (ab : List Char × List Char),
      splitFirst pat l = some ab → l = ab.1 ++ (pat ++ ab.2) := by
  intro l
  induction l with
  | nil =>
    intro ab h
    simp only [splitFirst] at h
    by_cases hp : pat.isEmpty
    · rw [if_pos hp] at h
      cases h
      simp [List.isEmpty_iff.mp hp]
    · rw [if_neg hp] at h; cases h
  | cons c cs ih =>
    intro ab h
    simp only [splitFirst] at h
    by_cases hpre : listStartsWith pat (c :: cs) = true
    · rw [if_pos hpre] at h
      cases h
      simpa using listStartsWith_decomp pat (c :: cs) hpre
    · rw [if_neg hpre] at h
      cases hrec : splitFirst pat cs with
      | none => rw [hrec] at h; cases h
      | some ab2 =>
        obtain ⟨a2, b2⟩ := ab2
        rw [hrec] at h
        cases h
        simpa using ih (a2, b2) hrec

/-- A successful `splitFirst` decomposes the list around the pattern. -/
theorem splitFirst_decomp (pat l a b : List Char)
    (h : splitFirst pat l = some (a, b)) : l = a ++ (pat ++ b) :=
  splitFirst_decomp_pair pat l (a, b) h

/-- `splitFirst` finds an occurrence wherever one exists. -/
theorem splitFirst_isSome (pat : List Char) :
    ∀ (x y : List Char), (splitFirst pat (x ++ (pat ++ y))).isSome = true := by
  intro x
  induction x with
  | nil =>
    intro y
    cases hp : pat with
    | nil => cases y <;> simp [splitFirst, listStartsWith]
    | cons p ps =>
      have hsw : listStartsWith (p :: ps) (p :: (ps ++ y)) = true := by
        simpa using listStartsWith_self_append (p :: ps) y
      simp only [List.nil_append]
      simp [splitFirst, hsw]
  | cons c cs ih =>
    intro y
    show (splitFirst pat (c :: (cs ++ (pat ++ y)))).isSome = true
    simp only [splitFirst]
    by_cases hpre : listStartsWith pat (c :: (cs ++ (pat ++ y))) = true
    · rw [if_pos hpre]; rfl
    · rw [if_neg hpre]
      have hrec := ih y
      cases h : splitFirst pat (cs ++ (pat ++ y)) with
      | none => rw [h] at hrec; simp at hrec
      | some ab => obtain ⟨a, b⟩ := ab; rfl

/-- Data of a `replaceFirst` that found its pattern. -/
theorem replaceFirst_data (s pat r : String) (a b : List Char)
    (h : splitFirst pat.data s.data = some (a, b)) :
    (replaceFirst s pat r).data = a ++ (r.data ++ b) := by
  unfold replaceFirst
  rw [h]
  simp

/-- `strIncludes` holds for any string whose data decomposes around the
pattern. -/
theorem strIncludes_of_decomp (s pat : String) (x y : List Char)
    (h : s.data = x ++ (pat.data ++ y)) : strIncludes s pat = true := by
  unfold strIncludes
  rw [h]
  exact splitFirst_isSome pat.data x y

/-- Decomposition of the first branch of the no-base injection chain:
the payload lands immediately before the first `</head>`. -/
theorem injectChainNoBase_spec (payload h : String)
    (hin : strIncludes h "</head>" = true) :
    ∃ a b, h.data = a ++ (("</head>" : String).data ++ b) ∧
      (injectChainNoBase payload h).data
        = a ++ (payload.data ++ (("</head>" : String).data ++ b)) := by
  have hin2 := hin
  unfold strIncludes at hin2
  obtain ⟨ab, hab⟩ := Option.isSome_iff_exists.mp hin2
  obtain ⟨a, b⟩ := ab
  refine ⟨a, b, splitFirst_decomp _ _ _ _ hab, ?_⟩
  unfold injectChainNoBase
  rw [if_pos hin]
  rw [replaceFirst_data _ _ _ a b hab]
  simp [strData_append, List.append_assoc]

/-- One application of the no-base chain grows the document by exactly
the payload length. -/
theorem injectChainNoBase_len (payload h : String)
    (hin : strIncludes h "</head>" = true) :
    (injectChainNoBase payload h).data.length = h.data.length + payload.data.length := by
  obtain ⟨a, b, hdec, hout⟩ := injectChainNoBase_spec payload h hin
  rw [hdec, hout]
  simp [List.length_append]
  omega

/-- The output of the no-base chain still contains `</head>`. -/
theorem injectChainNoBase_keeps (payload h : String)
    (hin : strIncludes h "</head>" = true) :
    strIncludes (injectChainNoBase payload h) "</head>" = true := by
  obtain ⟨a, b, _, hout⟩ := injectChainNoBase_spec payload h hin
  exact strIncludes_of_decomp _ _ (a ++ payload.data) b
    (by rw [hout]; simp [List.append_assoc])

/-- Applying the no-base chain twice is never the same as applying it
once (for a non-empty payload and a document containing `</head>`). -/
theorem injectChainNoBase_twice_ne (payload h : String)
    (hpos : 0 < payload.data.length)
    (hin : strIncludes h "</head>" = true) :
    injectChainNoBase payload (injectChainNoBase payload h) ≠ injectChainNoBase payload h := by
  intro heq
  have h1 := congrArg (fun s => s.data.length) heq
  simp only at h1
  rw [injectChainNoBase_len payload _ (injectChainNoBase_keeps payload h hin)] at h1
  omega

/-- The segment script of src/index.js is never empty. -/
theorem segmentScript_pos (segs : List String) : 0 < (segmentScript segs).data.length := by
  have h : (segmentScript segs).data
      = segScriptA.data ++ ((jsonStringifyStrList segs).data ++ segScriptB.data) := by
    simp [segmentScript, strData_append, List.append_assoc]
  have hA : 0 < segScriptA.data.length := by decide
  rw [h, List.length_append]
  omega

/-- The with-base injection chain always embeds its payload in the
output, whichever of the five branches fires. -/
theorem injectChainWithBase_has_payload (payload h : String) :
    strIncludes (injectChainWithBase payload h) payload = true := by
  unfold injectChainWithBase
  by_cases h1 : strIncludes h "</head>" = true
  · rw [if_pos h1]
    have h1b := h1
    unfold strIncludes at h1b
    obtain ⟨⟨a, b⟩, hab⟩ := Option.isSome_iff_exists.mp h1b
    exact strIncludes_of_decomp _ _ a (("</head>" : String).data ++ b)
      (by rw [replaceFirst_data _ _ _ a b hab]; simp [strData_append, List.append_assoc])
  · rw [if_neg h1]
    by_cases h2 : strIncludes h "<head>" = true
    · rw [if_pos h2]
      have h2b := h2
      unfold strIncludes at h2b
      obtain ⟨⟨a, b⟩, hab⟩ := Option.isSome_iff_exists.mp h2b
      exact strIncludes_of_decomp _ _ (a ++ ("<head>" : String).data) b
        (by rw [replaceFirst_data _ _ _ a b hab]; simp [strData_append, List.append_assoc])
    · rw [if_neg h2]
      by_cases h3 : strIncludes h "<html>" = true
      · rw [if_pos h3]
        have h3b := h3
        unfold strIncludes at h3b
        obtain ⟨⟨a, b⟩, hab⟩ := Option.isSome_iff_exists.mp h3b
        exact strIncludes_of_decomp _ _ (a ++ ("<html><head>" : String).data)
          (("</head>" : String).data ++ b)
          (by rw [replaceFirst_data _ _ _ a b hab]; simp [strData_append, List.append_assoc])
      · rw [if_neg h3]
        by_cases h4 : strIncludes h "<!DOCTYPE html>" = true
        · rw [if_pos h4]
          have h4b := h4
          unfold strIncludes at h4b
          obtain ⟨⟨a, b⟩, hab⟩ := Option.isSome_iff_exists.mp h4b
          exact strIncludes_of_decomp _ _ (a ++ ("<!DOCTYPE html><head>" : String).data)
            (("</head>" : String).data ++ b)
            (by rw [replaceFirst_data _ _ _ a b hab]; simp [strData_append, List.append_assoc])
        · rw [if_neg h4]
          exact strIncludes_of_decomp _ _ (("<head>" : String).data)
            (("</head>" : String).data ++ h.data)
            (by simp [strData_append, List.append_assoc])

/-- C5 (amended): the rewrite/injection pipeline is NOT idempotent.  For
any document containing `</head>` and any segments value, applying the
pipeline a second time to its own output injects the segments script
block again: the second output differs from the first and is longer by
exactly one more copy of the script block.  (Stated for the pipeline
without an origin base, where the URL-rewriting pass does not run; the
with-base chain inserts its payload through the same unconditional
`replace`.) -/
theorem c5_repeat_injection (segs : List String) (h : String)
    (hin : strIncludes h "</head>" = true) :
    injectSegmentsIntoPageHtml segs none (injectSegmentsIntoPageHtml segs none h)
      ≠ injectSegmentsIntoPageHtml segs none h ∧
    (injectSegmentsIntoPageHtml segs none (injectSegmentsIntoPageHtml segs none h)).data.length
      = (injectSegmentsIntoPageHtml segs none h).data.length
        + (segmentScript segs).data.length := by
  have e : ∀ x, injectSegmentsIntoPageHtml segs none x
      = injectChainNoBase (segmentScript segs) x := fun _ => rfl
  simp only [e]
  exact ⟨injectChainNoBase_twice_ne _ _ (segmentScript_pos segs) hin,
    injectChainNoBase_len _ _ (injectChainNoBase_keeps _ _ hin)⟩

/-- C5 (counterexample): on the concrete document `<head></head>` (with
no base URL and empty segments) the second application of
`injectSegmentsIntoPage`'s HTML transformation is not byte-identical to
the first — the script block is injected twice. -/
theorem c5_counterexample :
    injectSegmentsIntoPageHtml [] none (injectSegmentsIntoPageHtml [] none "<head></head>")
      ≠ injectSegmentsIntoPageHtml [] none "<head></head>" := by
  have e : ∀ x, injectSegmentsIntoPageHtml [] none x
      = injectChainNoBase (segmentScript []) x := fun _ => rfl
  simp only [e]
  exact injectChainNoBase_twice_ne _ _ (segmentScript_pos []) (by decide)

/-- C5 (witness): the amended theorem applied to `<head></head>` with a
one-segment value. -/
theorem c5_witness :
    strIncludes "<head></head>" "</head>" = true ∧
    injectSegmentsIntoPageHtml ["news"] none
        (injectSegmentsIntoPageHtml ["news"] none "<head></head>")
      ≠ injectSegmentsIntoPageHtml ["news"] none "<head></head>" :=
  ⟨by decide, (c5_repeat_injection ["news"] "<head></head>" (by decide)).1⟩

/-- C7 (amended): insertion-point behaviour of the two injection
implementations.  (1) src/index.js's chain (before `</head>`; else after
a literal `<head>`; else after `<html>` in a new head; else after
`<!DOCTYPE html>`; else prepended) always embeds the payload in the
output, for every document.  (2) part_005's `injectIntoHead` inserts
only immediately after an existing `<head ...>` opening tag; when no
head tag matches it returns the document unchanged — nothing is
prepended and no payload is injected. -/
theorem c7_insertion_points :
    (∀ (segs : List String) (u : UrlParts) (h : String),
        strIncludes (injectSegmentsIntoPageHtml segs (some u) h)
          (urlFixerScript u ++ segmentScript segs) = true) ∧
    (∀ (h : String) (baseUrl : Option String) (segs : Option Segments),
        findHeadMatch h.data = none → insertScope3Segments h baseUrl segs = h) := by
  constructor
  · intro segs u h
    show strIncludes (injectChainWithBase (urlFixerScript u ++ segmentScript segs)
        (rewriteProtocolRelative u.protocol h)) _ = true
    exact injectChainWithBase_has_payload _ _
  · intro h baseUrl segs hnone
    unfold insertScope3Segments injectIntoHead
    rw [hnone]

/-- C7 (counterexample): on a document with no `<head>` tag, part_005's
`insertScope3Segments` returns the input byte-identically — the payload
is NOT prepended and is absent from the output, contradicting the
claimed "else prepend / payload always present" behaviour. -/
theorem c7_counterexample :
    insertScope3Segments "<html><body>hi</body></html>" none (some emptySegments)
      = "<html><body>hi</body></html>" ∧
    strIncludes "<html><body>hi</body></html>" "<script>" = false :=
  ⟨rfl, by decide⟩

/-- C7 (witness): the amended theorem's part_005 clause applied to a
head-less document. -/
theorem c7_witness :
    findHeadMatch ("<p>x</p>" : String).data = none ∧
    insertScope3Segments "<p>x</p>" none none = "<p>x</p>" :=
  ⟨by decide, c7_insertion_points.2 "<p>x</p>" none none (by decide)⟩

/-- C1: revalidation correctness of the document cache.  For any URL
with a fresh cached entry carrying an ETag validator: an origin `304`
makes `getHtmlWithCache` return exactly the cached body with no cache
write; an origin `200` with a new body returns the new body and writes
exactly one entry holding the new body and the reply's validators. -/
theorem c1_revalidation (u : UrlParts) (env : HtmlCacheEnv) (now : Nat)
    (store : HtmlCacheStore) (e : HtmlCacheEntry) (t : String)
    (henv : env.htmlCache = some store)
    (hlook : store.lookup (generateHtmlCacheKey u) = some e)
    (hfresh : now - e.timestamp ≤ env.htmlCacheTtl * 1000)
    (hetag : e.validation.etag = some t) :
    (∀ stx et lm body, getHtmlWithCache u env now (.reply 304 stx et lm body)
        = .ok (⟨e.html, true, true, false, e.validation⟩, [])) ∧
    (∀ stx et lm body, getHtmlWithCache u env now (.reply 200 stx et lm body)
        = .ok (⟨body, false, false, false, ⟨et, lm⟩⟩,
            [(generateHtmlCacheKey u, ⟨body, urlToString u, now, ⟨et, lm⟩⟩)])) := by
  have hc : getCachedHtml u env now = some e := by
    have hnot : ¬ (now - e.timestamp > env.htmlCacheTtl * 1000) := by omega
    simp only [getCachedHtml, henv, hlook, if_neg hnot]
  constructor
  · intro stx et lm body
    unfold getHtmlWithCache
    rw [hc]
    simp [fetchHtmlWithConditional]
  · intro stx et lm body
    unfold getHtmlWithCache
    rw [hc]
    simp [fetchHtmlWithConditional, statusOk, cacheHtmlEntry, originEtag,
      originLastModified, henv]

/-- C1 (witness): the revalidation theorem applied to a concrete fresh
entry, with a 304 outcome and a 200 outcome. -/
theorem c1_witness :
    storeEx.lookup (generateHtmlCacheKey uEx) = some entryEx ∧
    2000 - entryEx.timestamp ≤ envEx.htmlCacheTtl * 1000 ∧
    entryEx.validation.etag = some "abc" ∧
    getHtmlWithCache uEx envEx 2000 (.reply 304 "Not Modified" (some "abc") none "")
      = .ok (⟨entryEx.html, true, true, false, entryEx.validation⟩, []) ∧
    getHtmlWithCache uEx envEx 2000 (.reply 200 "OK" (some "def") none "<html>new</html>")
      = .ok (⟨"<html>new</html>", false, false, false, ⟨some "def", none⟩⟩,
          [(generateHtmlCacheKey uEx,
            ⟨"<html>new</html>", urlToString uEx, 2000, ⟨some "def", none⟩⟩)]) := by
  refine ⟨rfl, by decide, rfl, ?_, ?_⟩
  · exact (c1_revalidation uEx envEx 2000 storeEx entryEx "abc" rfl rfl (by decide) rfl).1
      "Not Modified" (some "abc") none ""
  · exact (c1_revalidation uEx envEx 2000 storeEx entryEx "abc" rfl rfl (by decide) rfl).2
      "OK" (some "def") none "<html>new</html>"

/-- C2 (amended): stale-fallback behaviour of the document cache.  When
the origin interaction fails (network error or a non-304, non-2xx
reply) and a cached entry exists THAT IS STILL WITHIN ITS TTL, the fetch
returns the cached body flagged as a fallback (`isFallback`,
`X-Cache: HIT-FALLBACK`) and performs no cache write; when
`getCachedHtml` yields nothing — no binding, no entry, or an entry whose
TTL has expired — the failure is propagated to the caller. -/
theorem c2_stale_fallback :
    (∀ (u : UrlParts) (env : HtmlCacheEnv) (now : Nat) (store : HtmlCacheStore)
        (e : HtmlCacheEntry) (origin : OriginResult),
        env.htmlCache = some store →
        store.lookup (generateHtmlCacheKey u) = some e →
        now - e.timestamp ≤ env.htmlCacheTtl * 1000 →
        originFailedForCached origin = true →
        getHtmlWithCache u env now origin
          = .ok (⟨e.html, true, false, true, e.validation⟩, [])) ∧
    (∀ (u : UrlParts) (env : HtmlCacheEnv) (now : Nat) (origin : OriginResult),
        getCachedHtml u env now = none →
        originFailedNoCache origin = true →
        getHtmlWithCache u env now origin = .error ()) := by
  constructor
  · intro u env now store e origin henv hlook hfresh hfail
    have hc : getCachedHtml u env now = some e := by
      have hnot : ¬ (now - e.timestamp > env.htmlCacheTtl * 1000) := by omega
      simp only [getCachedHtml, henv, hlook, if_neg hnot]
    unfold getHtmlWithCache
    rw [hc]
    cases origin with
    | networkError => simp [fetchHtmlWithConditional, fallbackOrThrow]
    | reply status stx et lm body =>
      unfold originFailedForCached at hfail
      simp only [Bool.and_eq_true, Bool.not_eq_true'] at hfail
      obtain ⟨h304, hok⟩ := hfail
      simp [fetchHtmlWithConditional, fallbackOrThrow, h304, hok]
  · intro u env now origin hc hfail
    unfold getHtmlWithCache
    rw [hc]
    cases origin with
    | networkError => simp [fetchHtmlWithConditional, fallbackOrThrow]
    | reply status stx et lm body =>
      unfold originFailedNoCache at hfail
      simp only [Bool.not_eq_true'] at hfail
      simp [fetchHtmlWithConditional, fallbackOrThrow, hfail]

/-- C2 (counterexample): an entry whose TTL has expired does NOT serve
as a fallback.  With the only cached entry fetched at time 0, TTL 86400
seconds and the clock one millisecond past expiry, a network error is
propagated (`Except.error`) even though the entry is still in the
store — the claim's "even one whose TTL has expired" fails. -/
theorem c2_counterexample :
    storeStale.lookup (generateHtmlCacheKey uEx) = some entryStale ∧
    getHtmlWithCache uEx envStale 86400001 OriginResult.networkError = Except.error () :=
  ⟨rfl, rfl⟩

/-- C2 (witness): the fallback theorem applied to a fresh entry and an
origin 500. -/
theorem c2_witness :
    originFailedForCached (OriginResult.reply 500 "Internal Server Error" none none "oops")
      = true ∧
    getHtmlWithCache uEx envEx 2000 (OriginResult.reply 500 "Internal Server Error" none none "oops")
      = .ok (⟨entryEx.html, true, false, true, entryEx.validation⟩, []) :=
  ⟨by decide,
    c2_stale_fallback.1 uEx envEx 2000 storeEx entryEx _ rfl rfl (by decide) (by decide)⟩

/-- C9 (amended): document-cache identity is hostname + path — the
scheme is excluded along with the query — so any two URLs agreeing on
hostname and path (whatever their schemes or query strings) map to the
same cache key; in particular byte-identical canonical URLs do. -/
theorem c9_cache_identity (u1 u2 : UrlParts)
    (hh : u1.hostname = u2.hostname) (hp : u1.pathname = u2.pathname) :
    generateHtmlCacheKey u1 = generateHtmlCacheKey u2 := by
  unfold generateHtmlCacheKey
  rw [hh, hp]

/-- C9 (counterexample): `http://example.com/` and `https://example.com/`
have different spec canonical URLs (scheme + host + path) but identical
cache keys — the cache does not key on the scheme. -/
theorem c9_counterexample :
    specCanonicalUrl uExHttp ≠ specCanonicalUrl uEx ∧
    generateHtmlCacheKey uExHttp = generateHtmlCacheKey uEx :=
  ⟨by decide, rfl⟩

/-- C9 (witness): the identity theorem applied to the two schemes. -/
theorem c9_witness :
    uExHttp.hostname = uEx.hostname ∧ uExHttp.pathname = uEx.pathname ∧
    generateHtmlCacheKey uExHttp = generateHtmlCacheKey uEx :=
  ⟨rfl, rfl, c9_cache_identity uExHttp uEx rfl rfl⟩

/-- C3 (code bug in part_005): a timed-out classification call yields
the empty `{ global: [] }` result, yet part_005's cache-write guard
accepts it, so `handleRequest` schedules a segment-cache `put` for the
"no signal" result — contrary to the no-negative-caching rule (and to
part_007's guard, which correctly rejects the same value). -/
theorem c3_empty_result_cached :
    callSegmentApi5 ApiOutcome.timeout = emptySegments ∧
    shouldCacheSegments5 (callSegmentApi5 ApiOutcome.timeout) = true ∧
    (handleRequest5 uPage metaPlain none oracleTimeout).2
      = [SegCacheOp.segRead (getCacheKey5 reqA), SegCacheOp.classifyCall,
         SegCacheOp.segWrite (getCacheKey5 reqA)] ∧
    shouldCacheSegments7 (callSegmentApi5 ApiOutcome.timeout) = false :=
  ⟨rfl, rfl, rfl, rfl⟩

/-- C4 (amended): no classification failure is ever propagated as an
exception, but the failure value differs per variant: part_005's
`callSegmentApi` returns `{ global: [] }`, part_007's returns `null`
(which the injection step then defaults to `{ global: [] }`), and
src/index.js's `getScope3SegmentsWithTimeout` returns the empty array. -/
theorem c4_clients_absorb_failures :
    (∀ o : ApiOutcome, apiFailed o = true →
        callSegmentApi5 o = emptySegments ∧
        callSegmentApi7 o = none ∧
        segmentsOrEmpty (callSegmentApi7 o) = emptySegments) ∧
    (∀ oi : IdxApiOutcome, idxApiFailed oi = true →
        getScope3SegmentsWithTimeout oi = []) := by
  constructor
  · intro o ho
    cases o with
    | timeout => exact ⟨rfl, rfl, rfl⟩
    | transportError => exact ⟨rfl, rfl, rfl⟩
    | parseError => exact ⟨rfl, rfl, rfl⟩
    | ok d => simp [apiFailed] at ho
  · intro oi hoi
    cases oi with
    | ok kv => simp [idxApiFailed] at hoi
    | timeout => rfl
    | transportError => rfl
    | httpError => rfl
    | parseError => rfl

/-- C4 (counterexample): part_007's classification client returns `null`
on a timeout, not the claimed `{ global: [] }`. -/
theorem c4_counterexample :
    callSegmentApi7 ApiOutcome.timeout = none ∧
    callSegmentApi7 ApiOutcome.timeout ≠ some emptySegments :=
  ⟨rfl, by decide⟩

/-- C4 (witness): the amended theorem at concrete timeout outcomes. -/
theorem c4_witness :
    apiFailed ApiOutcome.timeout = true ∧
    callSegmentApi5 ApiOutcome.timeout = emptySegments ∧
    segmentsOrEmpty (callSegmentApi7 ApiOutcome.timeout) = emptySegments ∧
    idxApiFailed IdxApiOutcome.timeout = true ∧
    getScope3SegmentsWithTimeout IdxApiOutcome.timeout = [] :=
  ⟨rfl, (c4_clients_absorb_failures.1 ApiOutcome.timeout rfl).1,
    (c4_clients_absorb_failures.1 ApiOutcome.timeout rfl).2.2,
    rfl, c4_clients_absorb_failures.2 IdxApiOutcome.timeout rfl⟩

/-- C10: every request the bot check flags (verified bot, or
bot-management score above 75) is answered with the origin response
unmodified — no segment injection, no segment-cache read or write, and
no classification call. -/
theorem c10_bot_bypass (u : UrlParts) (meta : InboundMeta) (baseUrl : Option String)
    (o : Oracle5) (hbot : isBotRequest meta = true) :
    handleRequest5 u meta baseUrl o = (o.originResp, []) := by
  unfold handleRequest5
  by_cases hres : isResourcePath u.pathname = true
  · rw [if_pos hres]
  · rw [if_neg hres, if_pos hbot]

/-- C10 (witness): the bypass theorem applied to a verified bot and to a
score-90 request. -/
theorem c10_witness :
    isBotRequest metaBot = true ∧ isBotRequest metaScored = true ∧
    handleRequest5 uPage metaBot none oracleTimeout = (oracleTimeout.originResp, []) ∧
    handleRequest5 uPage metaScored none oracleTimeout = (oracleTimeout.originResp, []) :=
  ⟨rfl, rfl, c10_bot_bypass uPage metaBot none oracleTimeout rfl,
    c10_bot_bypass uPage metaScored none oracleTimeout rfl⟩

/-- Replacing the value of one key leaves `find?` for any other key
unchanged. -/
theorem find?_mapSet (hs : HeaderMap) (key v q : String) (h : ¬ q = key) :
    List.find? (fun p => p.1 == q) (hs.map (fun p => if p.1 == key then (key, v) else p))
      = List.find? (fun p => p.1 == q) hs := by
  induction hs with
  | nil => rfl
  | cons a t ih =>
    by_cases hak : (a.1 == key) = true
    · have hkq : (key == q) = false := beq_eq_false_iff_ne.mpr (fun hq => h hq.symm)
      have haq : (a.1 == q) = false := by
        rw [beq_iff_eq] at hak
        rw [hak]
        exact hkq
      rw [List.map_cons, if_pos hak,
        List.find?_cons_of_neg _ (by simp [hkq]),
        List.find?_cons_of_neg _ (by simp [haq]), ih]
    · have hak2 : (a.1 == key) = false := by simpa using hak
      rw [List.map_cons, if_neg (by simp [hak2])]
      cases haq : (a.1 == q) with
      | true =>
        rw [List.find?_cons_of_pos _ (by simp [haq]),
          List.find?_cons_of_pos _ (by simp [haq])]
      | false =>
        rw [List.find?_cons_of_neg _ (by simp [haq]),
          List.find?_cons_of_neg _ (by simp [haq]), ih]

/-- Appending an entry for another key leaves `find?` unchanged. -/
theorem find?_appendOne (hs : HeaderMap) (key v q : String) (h : ¬ q = key) :
    List.find? (fun p => p.1 == q) (hs ++ [(key, v)])
      = List.find? (fun p => p.1 == q) hs := by
  induction hs with
  | nil =>
    have hkq : (key == q) = false := beq_eq_false_iff_ne.mpr (fun hq => h hq.symm)
    simp only [List.nil_append]
    rw [List.find?_cons_of_neg _ (by simp [hkq])]
  | cons a t ih =>
    simp only [List.cons_append]
    cases haq : (a.1 == q) with
    | true =>
      rw [List.find?_cons_of_pos _ (by simp [haq]),
        List.find?_cons_of_pos _ (by simp [haq])]
    | false =>
      rw [List.find?_cons_of_neg _ (by simp [haq]),
        List.find?_cons_of_neg _ (by simp [haq]), ih]

/-- `headers.set` of one name does not disturb `get` of another. -/
theorem getHeader_setHeader_ne (hs : HeaderMap) (m v n : String)
    (h : ¬ strToLower n = strToLower m) :
    getHeader (setHeader hs m v) n = getHeader hs n := by
  unfold getHeader setHeader
  by_cases hany : hs.any (fun p => p.1 == strToLower m) = true
  · rw [if_pos hany, find?_mapSet hs (strToLower m) v (strToLower n) h]
  · rw [if_neg hany, find?_appendOne hs (strToLower m) v (strToLower n) h]

/-- Setting the three CORS headers does not disturb any other header. -/
theorem getHeader_corsify (hs : HeaderMap) (n : String)
    (h : strToLower n ∉ corsHeaderNames) :
    getHeader (corsify hs) n = getHeader hs n := by
  simp only [corsHeaderNames, List.mem_cons, List.not_mem_nil, or_false, not_or] at h
  obtain ⟨h1, h2, h3⟩ := h
  have e1 : strToLower "Access-Control-Allow-Origin"
      = "access-control-allow-origin" := by decide
  have e2 : strToLower "Access-Control-Allow-Methods"
      = "access-control-allow-methods" := by decide
  have e3 : strToLower "Access-Control-Allow-Headers"
      = "access-control-allow-headers" := by decide
  unfold corsify
  rw [getHeader_setHeader_ne _ _ _ _ (by rw [e3]; exact h3),
    getHeader_setHeader_ne _ _ _ _ (by rw [e2]; exact h2),
    getHeader_setHeader_ne _ _ _ _ (by rw [e1]; exact h1)]

/-- C8: a proxied origin response whose content type does not include
`text/html` is passed through with the original body, status and status
text; no segment-cache operation and no classification call happens; and
every header other than the three explicitly set CORS headers is
unchanged. -/
theorem c8_nonhtml_passthrough (target : UrlParts) (resp : HttpResponse)
    (cachedSegs : Option (List String)) (api : IdxApiOutcome)
    (hct : strIncludes ((getHeader resp.headers "content-type").getD "") "text/html" = false) :
    (handleProxyRequest target resp cachedSegs api).1.body = resp.body ∧
    (handleProxyRequest target resp cachedSegs api).1.status = resp.status ∧
    (handleProxyRequest target resp cachedSegs api).1.statusText = resp.statusText ∧
    (handleProxyRequest target resp cachedSegs api).2 = [] ∧
    ∀ n : String, strToLower n ∉ corsHeaderNames →
      getHeader (handleProxyRequest target resp cachedSegs api).1.headers n
        = getHeader resp.headers n := by
  have hred : handleProxyRequest target resp cachedSegs api
      = ({ resp with headers := corsify resp.headers }, []) := by
    simp only [handleProxyRequest, hct, Bool.not_false, if_true]
  rw [hred]
  exact ⟨rfl, rfl, rfl, rfl, fun n hn => getHeader_corsify resp.headers n hn⟩

/-- C8 (witness): the pass-through theorem applied to a PNG response
with a custom header. -/
theorem c8_witness :
    strIncludes ((getHeader respPng.headers "content-type").getD "") "text/html" = false ∧
    (handleProxyRequest uEx respPng none IdxApiOutcome.timeout).1.body = respPng.body ∧
    (handleProxyRequest uEx respPng none IdxApiOutcome.timeout).2 = [] ∧
    getHeader (handleProxyRequest uEx respPng none IdxApiOutcome.timeout).1.headers "x-custom"
      = getHeader respPng.headers "x-custom" := by
  have h := c8_nonhtml_passthrough uEx respPng none IdxApiOutcome.timeout (by decide)
  exact ⟨by decide, h.1, h.2.2.2.1, h.2.2.2.2 "x-custom" (by decide)⟩

/-- A character that JSON escaping leaves alone. -/
theorem jsonEscapeChar_plain (c : Char) (h32 : 32 ≤ c.toNat)
    (hq : c ≠ '"') (hb : c ≠ '\\') : jsonEscapeChar c = [c] := by
  have hn : c ≠ '\n' := fun hc => absurd (hc ▸ h32) (by decide)
  have hr : c ≠ '\r' := fun hc => absurd (hc ▸ h32) (by decide)
  have ht : c ≠ '\t' := fun hc => absurd (hc ▸ h32) (by decide)
  have h8 : c ≠ '\x08' := fun hc => absurd (hc ▸ h32) (by decide)
  have hf : c ≠ '\x0c' := fun hc => absurd (hc ▸ h32) (by decide)
  have hlt : ¬ c.toNat < 32 := by omega
  simp [jsonEscapeChar, hq, hb, hn, hr, ht, h8, hf, hlt]

/-- Escaping a list of plain characters is the identity. -/
theorem jsonEscapeList_plain : ∀ l : List Char,
    (∀ c ∈ l, (32 ≤ c.toNat && c ≠ '"' && c ≠ '\\') = true) →
    l.foldr (fun c acc => jsonEscapeChar c ++ acc) [] = l := by
  intro l
  induction l with
  | nil => intro _; rfl
  | cons c cs ih =>
    intro h
    have hc := h c (List.mem_cons_self c cs)
    simp only [Bool.and_eq_true, decide_eq_true_eq] at hc
    obtain ⟨⟨h32, hq⟩, hb⟩ := hc
    simp only [List.foldr_cons, ih (fun x hx => h x (List.mem_cons_of_mem c hx)),
      jsonEscapeChar_plain c h32 hq hb]
    rfl

/-- Escaping a plain string is the identity. -/
theorem jsonEscape_plain (s : String) (h : plainJsonString s = true) :
    jsonEscape s = s := by
  apply strEq_of_data
  have h2 : ∀ c ∈ s.data, (32 ≤ c.toNat && c ≠ '"' && c ≠ '\\') = true :=
    List.all_eq_true.mp h
  exact jsonEscapeList_plain s.data h2

/-- The normalized part_007 serialization splits around the escaped
`page` value. -/
theorem serNorm7_page_decomp (parse : String → UaResult) (r : OpenRtbRequest) (p : String) :
    (serializeNormalizedRequest7 parse (setRequestPage r p)).data
      = (pageA r).data ++ ((jsonEscape p).data ++ (pageB parse r).data) := by
  simp [serializeNormalizedRequest7, serializeSite, jsonStr, pageA, pageB, serTail7,
    setRequestPage, strData_append, List.append_assoc]

/-- The normalized part_007 serialization splits around the escaped
`etag` value. -/
theorem serNorm7_etag_decomp (parse : String → UaResult) (r : OpenRtbRequest) (e : String) :
    (serializeNormalizedRequest7 parse (setRequestEtag r e)).data
      = (etagA r).data ++ ((jsonEscape e).data ++ (etagB parse r).data) := by
  simp [serializeNormalizedRequest7, serializeSite, jsonStr, etagA, etagB, serTail7,
    setRequestEtag, strData_append, List.append_assoc]

/-- The normalized part_007 serialization splits around the escaped
`last_modified` value. -/
theorem serNorm7_lm_decomp (parse : String → UaResult) (r : OpenRtbRequest) (lm : String) :
    (serializeNormalizedRequest7 parse (setRequestLastModified r lm)).data
      = (lmA r).data ++ ((jsonEscape lm).data ++ (lmB parse r).data) := by
  simp [serializeNormalizedRequest7, serializeSite, jsonStr, lmA, lmB, serTail7,
    setRequestLastModified, strData_append, List.append_assoc]

/-- Cancel a common prefix and suffix. -/
theorem append_mid_inj {α : Type} {a x y b : List α}
    (h : a ++ (x ++ b) = a ++ (y ++ b)) : x = y :=
  List.append_cancel_right (List.append_cancel_left h)

/-- C6 (amended): part_007's key normalization.  (1) Two requests
differing only in a non-empty raw user-agent string whose parses agree
on browser and OS families get the same cache key, whatever hash is
used.  (2)-(4) Requests differing in the page URL, the `etag`
validator, or the `last_modified` validator (plain JSON strings) always
get different normalized serializations — distinct keys up to hash
collision. -/
theorem c6_cache_key_normalization :
    (∀ (sha : String → String) (parse : String → UaResult) (r : OpenRtbRequest)
        (u1 u2 : String), u1 ≠ "" → u2 ≠ "" → parse u1 = parse u2 →
        getCacheKey7 sha parse (setRequestUa r u1)
          = getCacheKey7 sha parse (setRequestUa r u2)) ∧
    (∀ (parse : String → UaResult) (r : OpenRtbRequest) (p1 p2 : String),
        plainJsonString p1 = true → plainJsonString p2 = true → p1 ≠ p2 →
        serializeNormalizedRequest7 parse (setRequestPage r p1)
          ≠ serializeNormalizedRequest7 parse (setRequestPage r p2)) ∧
    (∀ (parse : String → UaResult) (r : OpenRtbRequest) (e1 e2 : String),
        plainJsonString e1 = true → plainJsonString e2 = true → e1 ≠ e2 →
        serializeNormalizedRequest7 parse (setRequestEtag r e1)
          ≠ serializeNormalizedRequest7 parse (setRequestEtag r e2)) ∧
    (∀ (parse : String → UaResult) (r : OpenRtbRequest) (l1 l2 : String),
        plainJsonString l1 = true → plainJsonString l2 = true → l1 ≠ l2 →
        serializeNormalizedRequest7 parse (setRequestLastModified r l1)
          ≠ serializeNormalizedRequest7 parse (setRequestLastModified r l2)) := by
  refine ⟨?_, ?_, ?_, ?_⟩
  · intro sha parse r u1 u2 h1 h2 hp
    have hser : serializeNormalizedRequest7 parse (setRequestUa r u1)
        = serializeNormalizedRequest7 parse (setRequestUa r u2) := by
      simp [serializeNormalizedRequest7, setRequestUa, serializeDeviceNormalized,
        beq_eq_false_iff_ne.mpr h1, beq_eq_false_iff_ne.mpr h2, hp]
    unfold getCacheKey7
    rw [hser]
  · intro parse r p1 p2 hp1 hp2 hne heq
    have h1 := congrArg String.data heq
    rw [serNorm7_page_decomp, serNorm7_page_decomp,
      jsonEscape_plain p1 hp1, jsonEscape_plain p2 hp2] at h1
    exact hne (strEq_of_data (append_mid_inj h1))
  · intro parse r e1 e2 hp1 hp2 hne heq
    have h1 := congrArg String.data heq
    rw [serNorm7_etag_decomp, serNorm7_etag_decomp,
      jsonEscape_plain e1 hp1, jsonEscape_plain e2 hp2] at h1
    exact hne (strEq_of_data (append_mid_inj h1))
  · intro parse r l1 l2 hp1 hp2 hne heq
    have h1 := congrArg String.data heq
    rw [serNorm7_lm_decomp, serNorm7_lm_decomp,
      jsonEscape_plain l1 hp1, jsonEscape_plain l2 hp2] at h1
    exact hne (strEq_of_data (append_mid_inj h1))

/-- Chunked evaluation of `simpleHash` over an appended list. -/
theorem simpleHashFrom_append (h : Int) (a b : List Char) :
    simpleHashFrom h (a ++ b) = simpleHashFrom (simpleHashFrom h a) b := by
  simp [simpleHashFrom, List.foldl_append]

set_option maxRecDepth 8192 in
/-- Value of part_005's simpleHash on the serialized request reqA, computed in kernel-checkable chunks. -/
theorem simpleHashValA :
    simpleHash "\x7b\"site\":\x7b\"domain\":\"example.com\",\"page\":\"https://example.com/Aa\",\"ext\":\x7b\"scope3\":\x7b\"etag\":\"W-1\",\"last_modified\":\"\"\x7d\x7d\x7d,\"imp\":[\x7b\"id\":\"1\"\x7d],\"device\":\x7b\"devicetype\":2,\"geo\":\x7b\"country\":\"US\"\x7d,\"ua\":\"UA-Alpha\",\"os\":\"Mac OS\",\"make\":\"\",\"model\":\"\"\x7d\x7d" = (-1197154952 : Int) := by
  show simpleHashFrom 0 ("\x7b\"site\":\x7b\"domain\":\"example.com\",\"page\":\"https://example.com/Aa\",\"ext\":\x7b\"scope3\":\x7b\"etag\":\"W-1\",\"last_modified\":\"\"\x7d\x7d\x7d,\"imp\":[\x7b\"id\":\"1\"\x7d],\"device\":\x7b\"devicetype\":2,\"geo\":\x7b\"country\":\"US\"\x7d,\"ua\":\"UA-Alpha\",\"os\":\"Mac OS\",\"make\":\"\",\"model\":\"\"\x7d\x7d" : String).data = (-1197154952 : Int)
  have e : ("\x7b\"site\":\x7b\"domain\":\"example.com\",\"page\":\"https://example.com/Aa\",\"ext\":\x7b\"scope3\":\x7b\"etag\":\"W-1\",\"last_modified\":\"\"\x7d\x7d\x7d,\"imp\":[\x7b\"id\":\"1\"\x7d],\"device\":\x7b\"devicetype\":2,\"geo\":\x7b\"country\":\"US\"\x7d,\"ua\":\"UA-Alpha\",\"os\":\"Mac OS\",\"make\":\"\",\"model\":\"\"\x7d\x7d" : String).data = ("\x7b\"site\":\x7b\"domain\":\"examp" : String).data ++ (("le.com\",\"page\":\"https://" : String).data ++ (("example.com/Aa\",\"ext\":\x7b\"" : String).data ++ (("scope3\":\x7b\"etag\":\"W-1\",\"l" : String).data ++ (("ast_modified\":\"\"\x7d\x7d\x7d,\"imp" : String).data ++ (("\":[\x7b\"id\":\"1\"\x7d],\"device\":" : String).data ++ (("\x7b\"devicetype\":2,\"geo\":\x7b\"" : String).data ++ (("country\":\"US\"\x7d,\"ua\":\"UA-" : String).data ++ (("Alpha\",\"os\":\"Mac OS\",\"ma" : String).data ++ (("ke\":\"\",\"model\":\"\"\x7d\x7d" : String).data))))))))) := by decide
  rw [e]
  rw [simpleHashFrom_append]
  have v0 : simpleHashFrom (0 : Int) ("\x7b\"site\":\x7b\"domain\":\"examp" : String).data = (-1712616744 : Int) := by decide
  rw [v0]
  rw [simpleHashFrom_append]
  have v1 : simpleHashFrom (-1712616744 : Int) ("le.com\",\"page\":\"https://" : String).data = (407795958 : Int) := by decide
  rw [v1]
  rw [simpleHashFrom_append]
  have v2 : simpleHashFrom (407795958 : Int) ("example.com/Aa\",\"ext\":\x7b\"" : String).data = (-628970512 : Int) := by decide
  rw [v2]
  rw [simpleHashFrom_append]
  have v3 : simpleHashFrom (-628970512 : Int) ("scope3\":\x7b\"etag\":\"W-1\",\"l" : String).data = (285983624 : Int) := by decide
  rw [v3]
  rw [simpleHashFrom_append]
  have v4 : simpleHashFrom (285983624 : Int) ("ast_modified\":\"\"\x7d\x7d\x7d,\"imp" : String).data = (-834904865 : Int) := by decide
  rw [v4]
  rw [simpleHashFrom_append]
  have v5 : simpleHashFrom (-834904865 : Int) ("\":[\x7b\"id\":\"1\"\x7d],\"device\":" : String).data = (-602838887 : Int) := by decide
  rw [v5]
  rw [simpleHashFrom_append]
  have v6 : simpleHashFrom (-602838887 : Int) ("\x7b\"devicetype\":2,\"geo\":\x7b\"" : String).data = (1479023696 : Int) := by decide
  rw [v6]
  rw [simpleHashFrom_append]
  have v7 : simpleHashFrom (1479023696 : Int) ("country\":\"US\"\x7d,\"ua\":\"UA-" : String).data = (772626006 : Int) := by decide
  rw [v7]
  rw [simpleHashFrom_append]
  have v8 : simpleHashFrom (772626006 : Int) ("Alpha\",\"os\":\"Mac OS\",\"ma" : String).data = (1478136993 : Int) := by decide
  rw [v8]
  decide

set_option maxRecDepth 8192 in
/-- Value of part_005's simpleHash on the serialized request with only the raw UA string changed. -/
theorem simpleHashValB :
    simpleHash "\x7b\"site\":\x7b\"domain\":\"example.com\",\"page\":\"https://example.com/Aa\",\"ext\":\x7b\"scope3\":\x7b\"etag\":\"W-1\",\"last_modified\":\"\"\x7d\x7d\x7d,\"imp\":[\x7b\"id\":\"1\"\x7d],\"device\":\x7b\"devicetype\":2,\"geo\":\x7b\"country\":\"US\"\x7d,\"ua\":\"UA-Beta\",\"os\":\"Mac OS\",\"make\":\"\",\"model\":\"\"\x7d\x7d" = (1363882934 : Int) := by
  show simpleHashFrom 0 ("\x7b\"site\":\x7b\"domain\":\"example.com\",\"page\":\"https://example.com/Aa\",\"ext\":\x7b\"scope3\":\x7b\"etag\":\"W-1\",\"last_modified\":\"\"\x7d\x7d\x7d,\"imp\":[\x7b\"id\":\"1\"\x7d],\"device\":\x7b\"devicetype\":2,\"geo\":\x7b\"country\":\"US\"\x7d,\"ua\":\"UA-Beta\",\"os\":\"Mac OS\",\"make\":\"\",\"model\":\"\"\x7d\x7d" : String).data = (1363882934 : Int)
  have e : ("\x7b\"site\":\x7b\"domain\":\"example.com\",\"page\":\"https://example.com/Aa\",\"ext\":\x7b\"scope3\":\x7b\"etag\":\"W-1\",\"last_modified\":\"\"\x7d\x7d\x7d,\"imp\":[\x7b\"id\":\"1\"\x7d],\"device\":\x7b\"devicetype\":2,\"geo\":\x7b\"country\":\"US\"\x7d,\"ua\":\"UA-Beta\",\"os\":\"Mac OS\",\"make\":\"\",\"model\":\"\"\x7d\x7d" : String).data = ("\x7b\"site\":\x7b\"domain\":\"examp" : String).data ++ (("le.com\",\"page\":\"https://" : String).data ++ (("example.com/Aa\",\"ext\":\x7b\"" : String).data ++ (("scope3\":\x7b\"etag\":\"W-1\",\"l" : String).data ++ (("ast_modified\":\"\"\x7d\x7d\x7d,\"imp" : String).data ++ (("\":[\x7b\"id\":\"1\"\x7d],\"device\":" : String).data ++ (("\x7b\"devicetype\":2,\"geo\":\x7b\"" : String).data ++ (("country\":\"US\"\x7d,\"ua\":\"UA-" : String).data ++ (("Beta\",\"os\":\"Mac OS\",\"mak" : String).data ++ (("e\":\"\",\"model\":\"\"\x7d\x7d" : String).data))))))))) := by decide
  rw [e]
  rw [simpleHashFrom_append]
  have v0 : simpleHashFrom (0 : Int) ("\x7b\"site\":\x7b\"domain\":\"examp" : String).data = (-1712616744 : Int) := by decide
  rw [v0]
  rw [simpleHashFrom_append]
  have v1 : simpleHashFrom (-1712616744 : Int) ("le.com\",\"page\":\"https://" : String).data = (407795958 : Int) := by decide
  rw [v1]
  rw [simpleHashFrom_append]
  have v2 : simpleHashFrom (407795958 : Int) ("example.com/Aa\",\"ext\":\x7b\"" : String).data = (-628970512 : Int) := by decide
  rw [v2]
  rw [simpleHashFrom_append]
  have v3 : simpleHashFrom (-628970512 : Int) ("scope3\":\x7b\"etag\":\"W-1\",\"l" : String).data = (285983624 : Int) := by decide
  rw [v3]
  rw [simpleHashFrom_append]
  have v4 : simpleHashFrom (285983624 : Int) ("ast_modified\":\"\"\x7d\x7d\x7d,\"imp" : String).data = (-834904865 : Int) := by decide
  rw [v4]
  rw [simpleHashFrom_append]
  have v5 : simpleHashFrom (-834904865 : Int) ("\":[\x7b\"id\":\"1\"\x7d],\"device\":" : String).data = (-602838887 : Int) := by decide
  rw [v5]
  rw [simpleHashFrom_append]
  have v6 : simpleHashFrom (-602838887 : Int) ("\x7b\"devicetype\":2,\"geo\":\x7b\"" : String).data = (1479023696 : Int) := by decide
  rw [v6]
  rw [simpleHashFrom_append]
  have v7 : simpleHashFrom (1479023696 : Int) ("country\":\"US\"\x7d,\"ua\":\"UA-" : String).data = (772626006 : Int) := by decide
  rw [v7]
  rw [simpleHashFrom_append]
  have v8 : simpleHashFrom (772626006 : Int) ("Beta\",\"os\":\"Mac OS\",\"mak" : String).data = (779749800 : Int) := by decide
  rw [v8]
  decide

set_option maxRecDepth 8192 in
/-- Value of part_005's simpleHash on the serialized request with only the page URL changed (Aa to BB): the polynomial hash collides. -/
theorem simpleHashValC :
    simpleHash "\x7b\"site\":\x7b\"domain\":\"example.com\",\"page\":\"https://example.com/BB\",\"ext\":\x7b\"scope3\":\x7b\"etag\":\"W-1\",\"last_modified\":\"\"\x7d\x7d\x7d,\"imp\":[\x7b\"id\":\"1\"\x7d],\"device\":\x7b\"devicetype\":2,\"geo\":\x7b\"country\":\"US\"\x7d,\"ua\":\"UA-Alpha\",\"os\":\"Mac OS\",\"make\":\"\",\"model\":\"\"\x7d\x7d" = (-1197154952 : Int) := by
  show simpleHashFrom 0 ("\x7b\"site\":\x7b\"domain\":\"example.com\",\"page\":\"https://example.com/BB\",\"ext\":\x7b\"scope3\":\x7b\"etag\":\"W-1\",\"last_modified\":\"\"\x7d\x7d\x7d,\"imp\":[\x7b\"id\":\"1\"\x7d],\"device\":\x7b\"devicetype\":2,\"geo\":\x7b\"country\":\"US\"\x7d,\"ua\":\"UA-Alpha\",\"os\":\"Mac OS\",\"make\":\"\",\"model\":\"\"\x7d\x7d" : String).data = (-1197154952 : Int)
  have e : ("\x7b\"site\":\x7b\"domain\":\"example.com\",\"page\":\"https://example.com/BB\",\"ext\":\x7b\"scope3\":\x7b\"etag\":\"W-1\",\"last_modified\":\"\"\x7d\x7d\x7d,\"imp\":[\x7b\"id\":\"1\"\x7d],\"device\":\x7b\"devicetype\":2,\"geo\":\x7b\"country\":\"US\"\x7d,\"ua\":\"UA-Alpha\",\"os\":\"Mac OS\",\"make\":\"\",\"model\":\"\"\x7d\x7d" : String).data = ("\x7b\"site\":\x7b\"domain\":\"examp" : String).data ++ (("le.com\",\"page\":\"https://" : String).data ++ (("example.com/BB\",\"ext\":\x7b\"" : String).data ++ (("scope3\":\x7b\"etag\":\"W-1\",\"l" : String).data ++ (("ast_modified\":\"\"\x7d\x7d\x7d,\"imp" : String).data ++ (("\":[\x7b\"id\":\"1\"\x7d],\"device\":" : String).data ++ (("\x7b\"devicetype\":2,\"geo\":\x7b\"" : String).data ++ (("country\":\"US\"\x7d,\"ua\":\"UA-" : String).data ++ (("Alpha\",\"os\":\"Mac OS\",\"ma" : String).data ++ (("ke\":\"\",\"model\":\"\"\x7d\x7d" : String).data))))))))) := by decide
  rw [e]
  rw [simpleHashFrom_append]
  have v0 : simpleHashFrom (0 : Int) ("\x7b\"site\":\x7b\"domain\":\"examp" : String).data = (-1712616744 : Int) := by decide
  rw [v0]
  rw [simpleHashFrom_append]
  have v1 : simpleHashFrom (-1712616744 : Int) ("le.com\",\"page\":\"https://" : String).data = (407795958 : Int) := by decide
  rw [v1]
  rw [simpleHashFrom_append]
  have v2 : simpleHashFrom (407795958 : Int) ("example.com/BB\",\"ext\":\x7b\"" : String).data = (-628970512 : Int) := by decide
  rw [v2]
  rw [simpleHashFrom_append]
  have v3 : simpleHashFrom (-628970512 : Int) ("scope3\":\x7b\"etag\":\"W-1\",\"l" : String).data = (285983624 : Int) := by decide
  rw [v3]
  rw [simpleHashFrom_append]
  have v4 : simpleHashFrom (285983624 : Int) ("ast_modified\":\"\"\x7d\x7d\x7d,\"imp" : String).data = (-834904865 : Int) := by decide
  rw [v4]
  rw [simpleHashFrom_append]
  have v5 : simpleHashFrom (-834904865 : Int) ("\":[\x7b\"id\":\"1\"\x7d],\"device\":" : String).data = (-602838887 : Int) := by decide
  rw [v5]
  rw [simpleHashFrom_append]
  have v6 : simpleHashFrom (-602838887 : Int) ("\x7b\"devicetype\":2,\"geo\":\x7b\"" : String).data = (1479023696 : Int) := by decide
  rw [v6]
  rw [simpleHashFrom_append]
  have v7 : simpleHashFrom (1479023696 : Int) ("country\":\"US\"\x7d,\"ua\":\"UA-" : String).data = (772626006 : Int) := by decide
  rw [v7]
  rw [simpleHashFrom_append]
  have v8 : simpleHashFrom (772626006 : Int) ("Alpha\",\"os\":\"Mac OS\",\"ma" : String).data = (1478136993 : Int) := by decide
  rw [v8]
  decide

set_option maxRecDepth 8192 in
/-- C6 (counterexample, part_005's `getCacheKey`): two requests that
differ ONLY in the raw user-agent string hash to different keys, and two
requests that differ in the target URL (`.../Aa` vs `.../BB`) hash to
the SAME key (a collision of the 32-bit `simpleHash`) — both directions
of the claim fail on this variant. -/
theorem c6_counterexample :
    getCacheKey5 reqA ≠ getCacheKey5 (setRequestUa reqA "UA-Beta") ∧
    reqA.site.page ≠ (setRequestPage reqA "https://example.com/BB").site.page ∧
    getCacheKey5 reqA = getCacheKey5 (setRequestPage reqA "https://example.com/BB") := by
  have hserA : serializeRequest5 reqA = "\x7b\"site\":\x7b\"domain\":\"example.com\",\"page\":\"https://example.com/Aa\",\"ext\":\x7b\"scope3\":\x7b\"etag\":\"W-1\",\"last_modified\":\"\"\x7d\x7d\x7d,\"imp\":[\x7b\"id\":\"1\"\x7d],\"device\":\x7b\"devicetype\":2,\"geo\":\x7b\"country\":\"US\"\x7d,\"ua\":\"UA-Alpha\",\"os\":\"Mac OS\",\"make\":\"\",\"model\":\"\"\x7d\x7d" := by decide
  have hserB : serializeRequest5 (setRequestUa reqA "UA-Beta") = "\x7b\"site\":\x7b\"domain\":\"example.com\",\"page\":\"https://example.com/Aa\",\"ext\":\x7b\"scope3\":\x7b\"etag\":\"W-1\",\"last_modified\":\"\"\x7d\x7d\x7d,\"imp\":[\x7b\"id\":\"1\"\x7d],\"device\":\x7b\"devicetype\":2,\"geo\":\x7b\"country\":\"US\"\x7d,\"ua\":\"UA-Beta\",\"os\":\"Mac OS\",\"make\":\"\",\"model\":\"\"\x7d\x7d" := by decide
  have hserC : serializeRequest5 (setRequestPage reqA "https://example.com/BB") = "\x7b\"site\":\x7b\"domain\":\"example.com\",\"page\":\"https://example.com/BB\",\"ext\":\x7b\"scope3\":\x7b\"etag\":\"W-1\",\"last_modified\":\"\"\x7d\x7d\x7d,\"imp\":[\x7b\"id\":\"1\"\x7d],\"device\":\x7b\"devicetype\":2,\"geo\":\x7b\"country\":\"US\"\x7d,\"ua\":\"UA-Alpha\",\"os\":\"Mac OS\",\"make\":\"\",\"model\":\"\"\x7d\x7d" := by decide
  refine ⟨?_, by decide, ?_⟩
  · unfold getCacheKey5
    rw [hserA, hserB, simpleHashValA, simpleHashValB]
    decide
  · unfold getCacheKey5
    rw [hserA, hserC, simpleHashValA, simpleHashValC]

/-- C6 (witness): the normalization theorem at concrete requests — a
constant parser identifies two raw UA strings, and two plain page URLs
are separated. -/
theorem c6_witness :
    ("UA-Alpha" : String) ≠ "" ∧ parseConst "UA-Alpha" = parseConst "UA-Beta" ∧
    getCacheKey7 (fun s => s) parseConst (setRequestUa reqA "UA-Alpha")
      = getCacheKey7 (fun s => s) parseConst (setRequestUa reqA "UA-Beta") ∧
    plainJsonString "https://example.com/Aa" = true ∧
    serializeNormalizedRequest7 parseConst (setRequestPage reqA "https://example.com/Aa")
      ≠ serializeNormalizedRequest7 parseConst (setRequestPage reqA "https://example.com/BB") :=
  ⟨by decide, rfl,
    c6_cache_key_normalization.1 (fun s => s) parseConst reqA "UA-Alpha" "UA-Beta"
      (by decide) (by decide) rfl,
    by decide,
    c6_cache_key_normalization.2.1 parseConst reqA
      "https://example.com/Aa" "https://example.com/BB"
      (by decide) (by decide) (by decide)⟩
